import Mathlib

/-!
Verification of the college-basketball-data repository's spreadsheet
formatting layer and job-polling pipeline.

The Google Apps Script functions (`GET_*` in
`apps-script/google-apps-script-cbbd.js`, its embedded copy in
`apps-script/push-script.sh`, and the variant copy in `unnamed/part_001`)
are shallowly embedded here.  The `UrlFetchApp.fetch` + `JSON.parse`
prelude of each `GET_*` function is modelled by giving the function an
`Except JsError Doc` argument: `.ok doc` is a successfully parsed
document, `.error e` is a fetch or parse exception.  JavaScript's
`try { ... } catch (e) { return "Error: " + e.message }` wrappers are
modelled by running the body in the `Except JsError` monad and mapping
the error case to the error table/string the `catch` block returns.

Modelling conventions:
- JSON numbers are modelled as `ℚ` (JavaScript numbers are binary
  doubles; all values appearing in these documents are decimals, and no
  claim below depends on binary rounding).  The special values produced
  by division by zero are modelled by `JsNum` (`nan`, `posInf`,
  `negInf`), matching IEEE-754 semantics of JavaScript `/`.
- `x.y` access where `y` may be absent is modelled with `Option`;
  reading a property of `undefined` raises a `JsError` as in V8.
- `x || d` (JavaScript or-default) is modelled by `jsOr*` helpers that
  take JavaScript truthiness into account (`0`, `""`, absent are falsy).
- string rendering of numbers (`renderNum`) prints integers the way
  JavaScript does; non-integers are printed as exact rationals, an
  idealisation of double-to-decimal printing that no claim depends on.
-/

namespace CBBD

/-- A JavaScript exception value: `e.message` and (Apps Script) `e.lineNumber`. -/
structure JsError where
  message : String
  lineNumber : Option Int := none
  deriving Repr, DecidableEq

/-- A spreadsheet cell as returned by a `GET_*` function: a string, a
number, a boolean, or JavaScript `undefined`. -/
inductive Cell where
  | s (v : String)
  | num (v : ℚ)
  | b (v : Bool)
  | jsUndefined
  deriving Repr, DecidableEq

/-- A spreadsheet table: a list of rows of cells. -/
abbrev Row := List Cell

abbrev Table := List Row

/-- JavaScript number-to-string coercion for the rationals our documents
carry.  Integers render exactly as in JavaScript; non-integral rationals
render as `num/den` (an idealisation of double printing). -/
def renderNum (x : ℚ) : String :=
  if x.den = 1 then toString x.num
  else toString x.num ++ "/" ++ toString x.den

/-- JavaScript truthiness of a cell value (`0`, `""`, `false` and
`undefined` are falsy). -/
def cellTruthy : Cell → Bool
  | .s v => v ≠ ""
  | .num v => v ≠ 0
  | .b v => v
  | .jsUndefined => false

/-- JavaScript `x || d` on a possibly-absent cell value. -/
def jsOrCell (x : Option Cell) (d : Cell) : Cell :=
  match x with
  | some v => if cellTruthy v then v else d
  | none => d

/-- JavaScript `x || d` for a possibly-absent numeric field with a
numeric default (`0` is falsy, so `x || 0` agrees with `getD 0`). -/
def jsOrNum (x : Option ℚ) (d : ℚ) : ℚ :=
  match x with
  | some v => if v ≠ 0 then v else d
  | none => d

/-- JavaScript truthiness of a possibly-absent string field. -/
def strTruthy (x : Option String) : Bool :=
  x.getD "" ≠ ""

/-- Reading property `prop` of a possibly-`undefined` object, as in
`parent.prop`: raises a `TypeError` when the parent is absent. -/
def jsGetField {α : Type} (parent : Option α) (prop : String) : Except JsError α :=
  match parent with
  | some v => .ok v
  | none =>
      .error ⟨"Cannot read properties of undefined (reading '" ++ prop ++ "')", none⟩

/-- A JavaScript number including the IEEE-754 special values that
division by zero produces. -/
inductive JsNum where
  | fin (q : ℚ)
  | posInf
  | negInf
  | nan
  deriving Repr, DecidableEq

/-- JavaScript `/` on (finite) numbers: division by zero yields
`NaN` for `0 / 0` and a signed infinity otherwise. -/
def jsDiv (a b : ℚ) : JsNum :=
  if b = 0 then
    if a = 0 then .nan
    else if 0 < a then .posInf
    else .negInf
  else .fin (a / b)

/-- JavaScript `*` between a possibly-special number and a finite one. -/
def jsMul (a : JsNum) (b : ℚ) : JsNum :=
  match a with
  | .fin q => .fin (q * b)
  | .posInf => if 0 < b then .posInf else if b < 0 then .negInf else .nan
  | .negInf => if 0 < b then .negInf else if b < 0 then .posInf else .nan
  | .nan => .nan

/-- Fixed-point rendering of a finite rational with `digits` decimal
places (rounding to nearest, an idealisation of `Number.toFixed`). -/
def toFixedQ (digits : ℕ) (q : ℚ) : String :=
  let scale : ℤ := (10 : ℤ) ^ digits
  let scaled : ℤ := round (q * (scale : ℚ))
  let sign := if scaled < 0 then "-" else ""
  let n := scaled.natAbs
  if digits = 0 then sign ++ toString n
  else
    let ip := n / (10 : ℕ) ^ digits
    let fp := n % (10 : ℕ) ^ digits
    let fpStr := toString fp
    let fpPadded := String.mk (List.replicate (digits - fpStr.length) '0') ++ fpStr
    sign ++ toString ip ++ "." ++ fpPadded

/-- JavaScript `x.toFixed(digits)`: `NaN` and infinities render as their
names, finite values in fixed-point notation. -/
def JsNum.toFixed (digits : ℕ) : JsNum → String
  | .fin q => toFixedQ digits q
  | .posInf => "Infinity"
  | .negInf => "-Infinity"
  | .nan => "NaN"

/-! ## The player document (`data.players` JSON shape)

Shapes are taken from the accesses the `GET_*` functions perform:
`GET_PLAYER_PREVIOUS_SEASON_SUMMARY`, `GET_PLAYER_LAST_N_GAMES` and
`GET_PLAYERS_FULL`. -/

/-- A made/attempted/percentage triple (`fieldGoals`, `freeThrows`, ...). -/
structure ShotLine where
  made : Option ℚ := none
  attempted : Option ℚ := none
  percentage : Option ℚ := none
  pct : Option ℚ := none
  deriving Repr, DecidableEq

/-- `seasonStats` of a previous-season entry as read by
`GET_PLAYER_PREVIOUS_SEASON_SUMMARY`. -/
structure PrevSeasonStats where
  pointsPerGame : Option ℚ := none
  reboundsPerGame : Option ℚ := none
  threePointFieldGoals : Option ShotLine := none
  freeThrows : Option ShotLine := none
  deriving Repr, DecidableEq

/-- One entry of a player's `previousSeasons` array. -/
structure PreviousSeason where
  season : Option ℚ := none
  team : String
  games : Option ℚ := none
  gamesStarted : Option ℚ := none
  seasonStats : PrevSeasonStats
  deriving Repr, DecidableEq

/-- A made/attempted pair inside a game log entry. -/
structure GameShot where
  made : ℚ
  attempted : ℚ
  deriving Repr, DecidableEq

/-- An offensive/defensive rebound split inside a game log entry. -/
structure GameRebounds where
  offensive : ℚ
  defensive : ℚ
  deriving Repr, DecidableEq

/-- One entry of a player's `gameByGame` array, with exactly the fields
`GET_PLAYER_LAST_N_GAMES` reads. -/
structure GameEntry where
  date : String
  opponent : String
  isHome : Bool
  conferenceGame : Bool
  starter : Bool
  minutes : ℚ
  points : ℚ
  rebounds : GameRebounds
  assists : ℚ
  turnovers : ℚ
  steals : ℚ
  blocks : ℚ
  fouls : Option ℚ := none
  ejected : Bool
  fieldGoals : GameShot
  threePointFieldGoals : GameShot
  freeThrows : GameShot
  deriving Repr, DecidableEq

/-- An offensive/defensive/total rebound split in season totals. -/
structure ReboundLine where
  offensive : Option ℚ := none
  defensive : Option ℚ := none
  total : Option ℚ := none
  deriving Repr, DecidableEq

/-- A player's `seasonTotals` object with the fields `GET_PLAYERS_FULL`
reads (all read through the null-safe `safe` helper except `mpg` and
`minutes`, which the sort comparators read with an `|| 0` default). -/
structure SeasonTotals where
  games : Option ℚ := none
  gamesStarted : Option ℚ := none
  minutes : Option ℚ := none
  mpg : Option ℚ := none
  points : Option ℚ := none
  ppg : Option ℚ := none
  rebounds : Option ReboundLine := none
  rpg : Option ℚ := none
  assists : Option ℚ := none
  apg : Option ℚ := none
  turnovers : Option ℚ := none
  assistToTurnoverRatio : Option ℚ := none
  steals : Option ℚ := none
  spg : Option ℚ := none
  blocks : Option ℚ := none
  bpg : Option ℚ := none
  fieldGoals : Option ShotLine := none
  threePointFieldGoals : Option ShotLine := none
  freeThrows : Option ShotLine := none
  fouls : Option ℚ := none
  foulOuts : Option ℚ := none
  ejections : Option ℚ := none
  deriving Repr, DecidableEq

/-- A `rank`/`totalPlayers` pair inside `conferenceRankings`. -/
structure RankEntry where
  rank : ℚ
  totalPlayers : ℚ
  deriving Repr, DecidableEq

/-- A player's `conferenceRankings` object: one optional entry per stat
category, exactly the categories `GET_PLAYERS_FULL` renders. -/
structure ConfRankings where
  pointsPerGame : Option RankEntry := none
  assistsPerGame : Option RankEntry := none
  reboundsPerGame : Option RankEntry := none
  stealsPerGame : Option RankEntry := none
  blocksPerGame : Option RankEntry := none
  fieldGoalPct : Option RankEntry := none
  threePointPct : Option RankEntry := none
  freeThrowPct : Option RankEntry := none
  effectiveFieldGoalPct : Option RankEntry := none
  assistToTurnoverRatio : Option RankEntry := none
  offensiveRating : Option RankEntry := none
  defensiveRating : Option RankEntry := none
  netRating : Option RankEntry := none
  minutesPerGame : Option RankEntry := none
  fieldGoalsMade : Option RankEntry := none
  fieldGoalsAttempted : Option RankEntry := none
  threePointFieldGoalsMade : Option RankEntry := none
  threePointFieldGoalsAttempted : Option RankEntry := none
  freeThrowsMade : Option RankEntry := none
  freeThrowsAttempted : Option RankEntry := none
  offensiveRebounds : Option RankEntry := none
  defensiveRebounds : Option RankEntry := none
  totalRebounds : Option RankEntry := none
  totalAssists : Option RankEntry := none
  totalBlocks : Option RankEntry := none
  deriving Repr, DecidableEq

/-- A player's `winShares` object. -/
structure WinShares where
  offensive : Option ℚ := none
  defensive : Option ℚ := none
  total : Option ℚ := none
  totalPer40 : Option ℚ := none
  deriving Repr, DecidableEq

/-- One category of the `shootingStats` breakdown. -/
structure ShotBreakdownLine where
  attempted : Option ℚ := none
  made : Option ℚ := none
  pct : Option ℚ := none
  deriving Repr, DecidableEq

/-- A player's `shootingStats` object. -/
structure ShootingStats where
  dunks : Option ShotBreakdownLine := none
  layups : Option ShotBreakdownLine := none
  tipIns : Option ShotBreakdownLine := none
  twoPointJumpers : Option ShotBreakdownLine := none
  threePointJumpers : Option ShotBreakdownLine := none
  deriving Repr, DecidableEq

/-- One element of the document's `players` array, with the union of the
fields read by the embedded `GET_*` functions. -/
structure Player where
  name : String
  jerseyNumber : Option String := none
  position : Option String := none
  height : Option String := none
  class' : Option String := none
  isFreshman : Option Bool := none
  hometown : Option String := none
  highSchool : Option String := none
  seasonTotals : SeasonTotals
  conferenceRankings : Option ConfRankings := none
  twoPointFieldGoals : Option ShotLine := none
  offensiveRating : Option ℚ := none
  defensiveRating : Option ℚ := none
  netRating : Option ℚ := none
  PORPAG : Option ℚ := none
  usage : Option ℚ := none
  assistsTurnoverRatio : Option ℚ := none
  offensiveReboundPct : Option ℚ := none
  freeThrowRate : Option ℚ := none
  effectiveFieldGoalPct : Option ℚ := none
  trueShootingPct : Option ℚ := none
  winShares : Option WinShares := none
  shootingStats : Option ShootingStats := none
  gameByGame : List GameEntry := []
  previousSeasons : List PreviousSeason := []
  deriving Repr, DecidableEq

/-- The top-level player document (`data` after `JSON.parse`). -/
structure PlayersDoc where
  players : List Player
  deriving Repr, DecidableEq

/-- JavaScript `toLowerCase()` on the ASCII strings these documents
carry (character-wise case mapping). -/
def jsToLower (s : String) : String :=
  ⟨s.data.map Char.toLower⟩

/-- JavaScript `toUpperCase()` on the ASCII strings these documents
carry. -/
def jsToUpper (s : String) : String :=
  ⟨s.data.map Char.toUpper⟩

/-- The player lookup shared by the per-player `GET_*` functions:
`data.players.find(function(p) { return p.name.toLowerCase() ===
playerName.toLowerCase(); })`. -/
def findPlayer (doc : PlayersDoc) (playerName : String) : Option Player :=
  doc.players.find? (fun p => jsToLower p.name == jsToLower playerName)

/-! ## `GET_PLAYER_PREVIOUS_SEASON_SUMMARY`

Two divergent copies exist in the repository: the library version in
`apps-script/google-apps-script-cbbd.js` (identical to the copy in
`unnamed/part_001`) sorts `previousSeasons` by season year descending
and prints the `games` count; the copy embedded in
`apps-script/push-script.sh` takes the last array element and prints the
`gamesStarted` count. -/

/-- The sort key `(x.season || 0)` used by the library version's
comparator `(b.season || 0) - (a.season || 0)`. -/
def seasonKey (s : PreviousSeason) : ℚ :=
  jsOrNum s.season 0

/-- The summary string the library version builds from the selected
previous season: school, `games` count, ppg, rpg, 3P%, FT%. -/
def prevSeasonSummaryLib (prevSeason : PreviousSeason) : String :=
  let stats := prevSeason.seasonStats
  let school := jsToUpper prevSeason.team
  let games := jsOrNum prevSeason.games 0
  let ppg := jsOrNum stats.pointsPerGame 0
  let rpg := jsOrNum stats.reboundsPerGame 0
  let threePct := match stats.threePointFieldGoals with
    | some t => jsOrNum t.pct 0
    | none => 0
  let ftPct := match stats.freeThrows with
    | some t => jsOrNum t.pct 0
    | none => 0
  school ++ " " ++ renderNum games ++ "g, " ++ renderNum ppg ++ "p, " ++
    renderNum rpg ++ "r, " ++ renderNum threePct ++ "% 3P, " ++
    renderNum ftPct ++ "% FT"

/-- The summary string the push-script copy builds: identical except it
prints `gamesStarted || 0` where the library prints `games || 0`. -/
def prevSeasonSummaryPush (prevSeason : PreviousSeason) : String :=
  let stats := prevSeason.seasonStats
  let school := jsToUpper prevSeason.team
  let gamesStarted := jsOrNum prevSeason.gamesStarted 0
  let ppg := jsOrNum stats.pointsPerGame 0
  let rpg := jsOrNum stats.reboundsPerGame 0
  let threePct := match stats.threePointFieldGoals with
    | some t => jsOrNum t.pct 0
    | none => 0
  let ftPct := match stats.freeThrows with
    | some t => jsOrNum t.pct 0
    | none => 0
  school ++ " " ++ renderNum gamesStarted ++ "g, " ++ renderNum ppg ++ "p, " ++
    renderNum rpg ++ "r, " ++ renderNum threePct ++ "% 3P, " ++
    renderNum ftPct ++ "% FT"

/-- Body of the library `GET_PLAYER_PREVIOUS_SEASON_SUMMARY`: find the
player, handle the not-found and no-previous-seasons cases, then sort a
copy of `previousSeasons` by season year descending (V8's stable sort,
comparator `(b.season || 0) - (a.season || 0)`) and summarise the first
element. -/
def GET_PLAYER_PREVIOUS_SEASON_SUMMARY_body (fetched : Except JsError PlayersDoc)
    (playerName : String) : Except JsError String := do
  let data ← fetched
  match findPlayer data playerName with
  | none => pure "Player not found"
  | some player =>
    if player.previousSeasons.isEmpty then pure "-"
    else
      let sortedSeasons :=
        player.previousSeasons.mergeSort (fun a b => decide (seasonKey b ≤ seasonKey a))
      match sortedSeasons with
      | [] => .error ⟨"Cannot read properties of undefined (reading 'seasonStats')", none⟩
      | prevSeason :: _ => pure (prevSeasonSummaryLib prevSeason)

/-- The library `GET_PLAYER_PREVIOUS_SEASON_SUMMARY` with its
`try`/`catch` wrapper (`return "Error: " + e.message`). -/
def GET_PLAYER_PREVIOUS_SEASON_SUMMARY (fetched : Except JsError PlayersDoc)
    (playerName : String) : String :=
  match GET_PLAYER_PREVIOUS_SEASON_SUMMARY_body fetched playerName with
  | .ok s => s
  | .error e => "Error: " ++ e.message

/-- Body of the push-script copy of `GET_PLAYER_PREVIOUS_SEASON_SUMMARY`:
same lookup and guards, but the selected season is
`previousSeasons[previousSeasons.length - 1]` (the last array element)
and the summary prints `gamesStarted`. -/
def GET_PLAYER_PREVIOUS_SEASON_SUMMARY_push_body (fetched : Except JsError PlayersDoc)
    (playerName : String) : Except JsError String := do
  let data ← fetched
  match findPlayer data playerName with
  | none => pure "Player not found"
  | some player =>
    if player.previousSeasons.isEmpty then pure "-"
    else
      match player.previousSeasons.getLast? with
      | none => .error ⟨"Cannot read properties of undefined (reading 'seasonStats')", none⟩
      | some prevSeason => pure (prevSeasonSummaryPush prevSeason)

/-- The push-script `GET_PLAYER_PREVIOUS_SEASON_SUMMARY` with its
`try`/`catch` wrapper. -/
def GET_PLAYER_PREVIOUS_SEASON_SUMMARY_push (fetched : Except JsError PlayersDoc)
    (playerName : String) : String :=
  match GET_PLAYER_PREVIOUS_SEASON_SUMMARY_push_body fetched playerName with
  | .ok s => s
  | .error e => "Error: " ++ e.message

/-! ## `GET_PLAYER_LAST_N_GAMES` -/

/-- The header row of `GET_PLAYER_LAST_N_GAMES`. -/
def lastNGamesHeader : Row :=
  [Cell.s "Date", Cell.s "Opponent", Cell.s "Home/Away", Cell.s "Conf", Cell.s "Starter",
   Cell.s "Min", Cell.s "Pts", Cell.s "OReb", Cell.s "DReb", Cell.s "TReb", Cell.s "Ast", Cell.s "TO",
   Cell.s "Stl", Cell.s "Blk", Cell.s "Fouls", Cell.s "Ejected",
   Cell.s "FGM-FGA", Cell.s "3PM-3PA", Cell.s "FTM-FTA"]

/-- One data row of `GET_PLAYER_LAST_N_GAMES`, built from one
`gameByGame` entry exactly as the loop body does. -/
def gameRow (game : GameEntry) : Row :=
  [Cell.s game.date,
   Cell.s game.opponent,
   Cell.s (if game.isHome then "Home" else "Away"),
   Cell.s (if game.conferenceGame then "Conf" else "Non-Conf"),
   Cell.s (if game.starter then "Start" else "Bench"),
   Cell.num game.minutes,
   Cell.num game.points,
   Cell.num game.rebounds.offensive,
   Cell.num game.rebounds.defensive,
   Cell.num (game.rebounds.offensive + game.rebounds.defensive),
   Cell.num game.assists,
   Cell.num game.turnovers,
   Cell.num game.steals,
   Cell.num game.blocks,
   Cell.num (jsOrNum game.fouls 0),
   Cell.s (if game.ejected then "Yes" else "No"),
   Cell.s (renderNum game.fieldGoals.made ++ "-" ++ renderNum game.fieldGoals.attempted),
   Cell.s (renderNum game.threePointFieldGoals.made ++ "-" ++ renderNum game.threePointFieldGoals.attempted),
   Cell.s (renderNum game.freeThrows.made ++ "-" ++ renderNum game.freeThrows.attempted)]

/-- Body of `GET_PLAYER_LAST_N_GAMES`: find the player, handle not-found
and empty-log cases, then render the final `Math.min(n, length)` entries
of `gameByGame` (the loop runs from `length - gamesToShow` to the end). -/
def GET_PLAYER_LAST_N_GAMES_body (fetched : Except JsError PlayersDoc)
    (playerName : String) (n : ℕ) : Except JsError Table := do
  let data ← fetched
  match findPlayer data playerName with
  | none => pure [[.s "Player not found"]]
  | some player =>
    if player.gameByGame.isEmpty then pure [[.s "No games found"]]
    else
      let gamesToShow := min n player.gameByGame.length
      let startIndex := player.gameByGame.length - gamesToShow
      pure (lastNGamesHeader :: (player.gameByGame.drop startIndex).map gameRow)

/-- `GET_PLAYER_LAST_N_GAMES` with its `try`/`catch` wrapper
(`return [["Error: " + e.message]]`). -/
def GET_PLAYER_LAST_N_GAMES (fetched : Except JsError PlayersDoc)
    (playerName : String) (n : ℕ) : Table :=
  match GET_PLAYER_LAST_N_GAMES_body fetched playerName n with
  | .ok t => t
  | .error e => [[.s ("Error: " ++ e.message)]]

/-! ## `GET_PLAYERS_FULL` -/

/-- JavaScript `parseInt(s) || 0` restricted to the unsigned decimal
strings jersey numbers are: the leading run of digits, or `0` when there
is none (`parseInt` then returns `NaN`, which `|| 0` maps to `0`). -/
def jsParseIntOr0 (s : String) : ℚ :=
  (((s.takeWhile (fun c => c.isDigit)).toNat?).getD 0 : ℕ)

/-- The mpg sort key `(p.seasonTotals.mpg || 0)`. -/
def mpgKey (p : Player) : ℚ :=
  jsOrNum p.seasonTotals.mpg 0

/-- The total-minutes sort key `(p.seasonTotals.minutes || 0)`. -/
def minutesKey (p : Player) : ℚ :=
  jsOrNum p.seasonTotals.minutes 0

/-- The jersey sort key `parseInt(p.jerseyNumber) || 0`
(`parseInt(undefined)` is `NaN`, hence `0`). -/
def jerseyKey (p : Player) : ℚ :=
  match p.jerseyNumber with
  | none => 0
  | some s => jsParseIntOr0 s

/-- The display order of `GET_PLAYERS_FULL` (source lines 781-810 of the
library file): stable-sort a copy of `players` by mpg descending, take
the top 9 and re-sort them by jersey number ascending, sort the rest by
total minutes descending, and concatenate. -/
def sortPlayersForDisplay (players : List Player) : List Player :=
  let playersCopy := players.mergeSort (fun a b => decide (mpgKey b ≤ mpgKey a))
  let top9 := playersCopy.take 9
  let rest := playersCopy.drop 9
  let top9Sorted := top9.mergeSort (fun a b => decide (jerseyKey a ≤ jerseyKey b))
  let restSorted := rest.mergeSort (fun a b => decide (minutesKey b ≤ minutesKey a))
  top9Sorted ++ restSorted

/-- The `safe(obj, path, default)` helper of `GET_PLAYERS_FULL` applied
to a numeric field: it returns the value when present, and otherwise
`defaultVal || ""` — which is `""` for both the `0` and the `""`
defaults used at its call sites, since `0` is falsy. -/
def safeNum (x : Option ℚ) : Cell :=
  match x with
  | some v => .num v
  | none => .s ""

/-- A conference-ranking cell:
`cr && cr.cat ? cr.cat.rank + "/" + cr.cat.totalPlayers : ""`. -/
def rankCell (cr : Option ConfRankings) (sel : ConfRankings → Option RankEntry) : Cell :=
  match cr with
  | none => .s ""
  | some c =>
    match sel c with
    | some r => .s (renderNum r.rank ++ "/" ++ renderNum r.totalPlayers)
    | none => .s ""

/-- The header row of `GET_PLAYERS_FULL` (95 columns). -/
def playersFullHeader : Row :=
  [Cell.s "Name", Cell.s "Jersey", Cell.s "Position", Cell.s "Height", Cell.s "Class", Cell.s "Freshman",
   Cell.s "Hometown", Cell.s "High School",
   Cell.s "Games", Cell.s "GS", Cell.s "Min", Cell.s "MPG",
   Cell.s "Pts", Cell.s "PPG",
   Cell.s "OReb", Cell.s "DReb", Cell.s "TReb", Cell.s "RPG",
   Cell.s "Ast", Cell.s "APG", Cell.s "TO", Cell.s "A/TO",
   Cell.s "Stl", Cell.s "SPG", Cell.s "Blk", Cell.s "BPG",
   Cell.s "FGM", Cell.s "FGA", Cell.s "FG%", Cell.s "2PM", Cell.s "2PA", Cell.s "2P%",
   Cell.s "3PM", Cell.s "3PA", Cell.s "3P%", Cell.s "FTM", Cell.s "FTA", Cell.s "FT%",
   Cell.s "ORtg", Cell.s "DRtg", Cell.s "NetRtg", Cell.s "PORPAG", Cell.s "Usage%",
   Cell.s "AST/TO", Cell.s "OReb%", Cell.s "FTR", Cell.s "eFG%", Cell.s "TS%",
   Cell.s "WS Off", Cell.s "WS Def", Cell.s "WS Total", Cell.s "WS/40",
   Cell.s "PPG Rank", Cell.s "APG Rank", Cell.s "RPG Rank", Cell.s "SPG Rank", Cell.s "BPG Rank",
   Cell.s "FG% Rank", Cell.s "3P% Rank", Cell.s "FT% Rank", Cell.s "eFG% Rank",
   Cell.s "A/TO Rank", Cell.s "ORtg Rank", Cell.s "DRtg Rank", Cell.s "NetRtg Rank",
   Cell.s "MPG Rank", Cell.s "FGM Rank", Cell.s "FGA Rank", Cell.s "3PM Rank", Cell.s "3PA Rank",
   Cell.s "FTM Rank", Cell.s "FTA Rank", Cell.s "OReb Rank", Cell.s "DReb Rank", Cell.s "TReb Rank",
   Cell.s "Ast Rank", Cell.s "Blk Rank",
   Cell.s "Fouls", Cell.s "Foul Outs", Cell.s "Ejections",
   Cell.s "Dunks Att", Cell.s "Dunks Made", Cell.s "Dunks %",
   Cell.s "Layups Att", Cell.s "Layups Made", Cell.s "Layups %",
   Cell.s "Tip-Ins Att", Cell.s "Tip-Ins Made", Cell.s "Tip-Ins %",
   Cell.s "2PT Jumpers Att", Cell.s "2PT Jumpers Made", Cell.s "2PT Jumpers %",
   Cell.s "3PT Jumpers Att", Cell.s "3PT Jumpers Made", Cell.s "3PT Jumpers %"]

/-- The three cells one `shootingStats` category contributes
(`attempted`, `made`, `pct`, each through `safe`). -/
def breakdownCells (l : Option ShotBreakdownLine) : Row :=
  [safeNum (l.bind (fun x => x.attempted)),
   safeNum (l.bind (fun x => x.made)),
   safeNum (l.bind (fun x => x.pct))]

/-- Basic-info cells of a `GET_PLAYERS_FULL` data row (string fields
default with `|| ""`, `isFreshman` with `|| false`). -/
def playerRowBasic (player : Player) : Row :=
  [Cell.s player.name,
   Cell.s (player.jerseyNumber.getD ""),
   Cell.s (player.position.getD ""),
   Cell.s (player.height.getD ""),
   Cell.s (player.class'.getD ""),
   Cell.b (player.isFreshman.getD false),
   Cell.s (player.hometown.getD ""),
   Cell.s (player.highSchool.getD "")]

/-- Season-totals cells of a `GET_PLAYERS_FULL` data row (playing time,
scoring, rebounds, playmaking, defense), all through `safe`. -/
def playerRowTotals (st : SeasonTotals) : Row :=
  [safeNum st.games,
   safeNum st.gamesStarted,
   safeNum st.minutes,
   safeNum st.mpg,
   safeNum st.points,
   safeNum st.ppg,
   safeNum (st.rebounds.bind (fun r => r.offensive)),
   safeNum (st.rebounds.bind (fun r => r.defensive)),
   safeNum (st.rebounds.bind (fun r => r.total)),
   safeNum st.rpg,
   safeNum st.assists,
   safeNum st.apg,
   safeNum st.turnovers,
   safeNum st.assistToTurnoverRatio,
   safeNum st.steals,
   safeNum st.spg,
   safeNum st.blocks,
   safeNum st.bpg]

/-- Shooting cells of a `GET_PLAYERS_FULL` data row (field goals from
`seasonTotals`, two-pointers from the player object). -/
def playerRowShooting (player : Player) : Row :=
  let st := player.seasonTotals
  [safeNum (st.fieldGoals.bind (fun f => f.made)),
   safeNum (st.fieldGoals.bind (fun f => f.attempted)),
   safeNum (st.fieldGoals.bind (fun f => f.percentage)),
   safeNum (player.twoPointFieldGoals.bind (fun f => f.made)),
   safeNum (player.twoPointFieldGoals.bind (fun f => f.attempted)),
   safeNum (player.twoPointFieldGoals.bind (fun f => f.pct)),
   safeNum (st.threePointFieldGoals.bind (fun f => f.made)),
   safeNum (st.threePointFieldGoals.bind (fun f => f.attempted)),
   safeNum (st.threePointFieldGoals.bind (fun f => f.percentage)),
   safeNum (st.freeThrows.bind (fun f => f.made)),
   safeNum (st.freeThrows.bind (fun f => f.attempted)),
   safeNum (st.freeThrows.bind (fun f => f.percentage))]

/-- Advanced-stat cells of a `GET_PLAYERS_FULL` data row (read directly
off the player object with `safe` and default `""`). -/
def playerRowAdvanced (player : Player) : Row :=
  [safeNum player.offensiveRating,
   safeNum player.defensiveRating,
   safeNum player.netRating,
   safeNum player.PORPAG,
   safeNum player.usage,
   safeNum player.assistsTurnoverRatio,
   safeNum player.offensiveReboundPct,
   safeNum player.freeThrowRate,
   safeNum player.effectiveFieldGoalPct,
   safeNum player.trueShootingPct,
   safeNum (player.winShares.bind (fun w => w.offensive)),
   safeNum (player.winShares.bind (fun w => w.defensive)),
   safeNum (player.winShares.bind (fun w => w.total)),
   safeNum (player.winShares.bind (fun w => w.totalPer40))]

/-- Conference-ranking cells of a `GET_PLAYERS_FULL` data row: the
original 13 categories followed by the 12 volume categories. -/
def playerRowRanks (cr : Option ConfRankings) : Row :=
  [rankCell cr (fun c => c.pointsPerGame),
   rankCell cr (fun c => c.assistsPerGame),
   rankCell cr (fun c => c.reboundsPerGame),
   rankCell cr (fun c => c.stealsPerGame),
   rankCell cr (fun c => c.blocksPerGame),
   rankCell cr (fun c => c.fieldGoalPct),
   rankCell cr (fun c => c.threePointPct),
   rankCell cr (fun c => c.freeThrowPct),
   rankCell cr (fun c => c.effectiveFieldGoalPct),
   rankCell cr (fun c => c.assistToTurnoverRatio),
   rankCell cr (fun c => c.offensiveRating),
   rankCell cr (fun c => c.defensiveRating),
   rankCell cr (fun c => c.netRating),
   rankCell cr (fun c => c.minutesPerGame),
   rankCell cr (fun c => c.fieldGoalsMade),
   rankCell cr (fun c => c.fieldGoalsAttempted),
   rankCell cr (fun c => c.threePointFieldGoalsMade),
   rankCell cr (fun c => c.threePointFieldGoalsAttempted),
   rankCell cr (fun c => c.freeThrowsMade),
   rankCell cr (fun c => c.freeThrowsAttempted),
   rankCell cr (fun c => c.offensiveRebounds),
   rankCell cr (fun c => c.defensiveRebounds),
   rankCell cr (fun c => c.totalRebounds),
   rankCell cr (fun c => c.totalAssists),
   rankCell cr (fun c => c.totalBlocks)]

/-- Foul cells and the `shootingStats` breakdown cells of a
`GET_PLAYERS_FULL` data row. -/
def playerRowFoulsAndBreakdown (player : Player) : Row :=
  let st := player.seasonTotals
  let ss := player.shootingStats
  [safeNum st.fouls, safeNum st.foulOuts, safeNum st.ejections] ++
    breakdownCells (ss.bind (fun g => g.dunks)) ++
    breakdownCells (ss.bind (fun g => g.layups)) ++
    breakdownCells (ss.bind (fun g => g.tipIns)) ++
    breakdownCells (ss.bind (fun g => g.twoPointJumpers)) ++
    breakdownCells (ss.bind (fun g => g.threePointJumpers))

/-- One data row of `GET_PLAYERS_FULL`, mirroring the `forEach` body
cell by cell; the single 95-cell array literal of the source is written
here as the concatenation of its consecutive column groups. -/
def playerRow (player : Player) : Row :=
  playerRowBasic player ++ playerRowTotals player.seasonTotals ++
    playerRowShooting player ++ playerRowAdvanced player ++
    playerRowRanks player.conferenceRankings ++
    playerRowFoulsAndBreakdown player

/-- Body of `GET_PLAYERS_FULL`: the header row followed by one row per
player in display order. -/
def GET_PLAYERS_FULL_body (fetched : Except JsError PlayersDoc) :
    Except JsError Table := do
  let data ← fetched
  pure (playersFullHeader :: (sortPlayersForDisplay data.players).map playerRow)

/-- Rendering of `e.lineNumber` in the catch block of
`GET_PLAYERS_FULL` (`undefined` when the error carries no line). -/
def renderLineNumber (x : Option Int) : String :=
  match x with
  | some v => toString v
  | none => "undefined"

/-- `GET_PLAYERS_FULL` with its `try`/`catch` wrapper
(`return [["Error: " + e.message], ["Line: " + e.lineNumber]]`). -/
def GET_PLAYERS_FULL (fetched : Except JsError PlayersDoc) : Table :=
  match GET_PLAYERS_FULL_body fetched with
  | .ok t => t
  | .error e => [[.s ("Error: " ++ e.message)], [.s ("Line: " ++ renderLineNumber e.lineNumber)]]

/-! ## `GET_TEAM_SEASON_STATS`

The `data.teamSeasonStats` document shape, with all the fields the
function's table literal reads (these are mandatory in the generated
JSON; reading them does not go through `safe`). -/

/-- The `points` object of one side's stats. -/
structure PointsLine where
  total : ℚ
  inPaint : ℚ
  offTurnovers : ℚ
  fastBreak : ℚ
  deriving Repr, DecidableEq

/-- A made/attempted/pct object of one side's stats. -/
structure MadeAttPct where
  made : ℚ
  attempted : ℚ
  pct : ℚ
  deriving Repr, DecidableEq

/-- The `rebounds` object of one side's stats. -/
structure ReboundsTriple where
  offensive : ℚ
  defensive : ℚ
  total : ℚ
  deriving Repr, DecidableEq

/-- The `turnovers` object of one side's stats. -/
structure TurnoverLine where
  total : ℚ
  teamTotal : ℚ
  deriving Repr, DecidableEq

/-- The `fouls` object of one side's stats. -/
structure FoulLine where
  total : ℚ
  technical : ℚ
  flagrant : ℚ
  deriving Repr, DecidableEq

/-- The `fourFactors` object of one side's stats. -/
structure FourFactorsLine where
  effectiveFieldGoalPct : ℚ
  turnoverRatio : ℚ
  offensiveReboundPct : ℚ
  freeThrowRate : ℚ
  deriving Repr, DecidableEq

/-- One side (`teamStats` or `opponentStats`) of the aggregate stats. -/
structure SideStats where
  possessions : ℚ
  trueShooting : ℚ
  rating : ℚ
  points : PointsLine
  fieldGoals : MadeAttPct
  twoPointFieldGoals : MadeAttPct
  threePointFieldGoals : MadeAttPct
  freeThrows : MadeAttPct
  rebounds : ReboundsTriple
  assists : ℚ
  steals : ℚ
  blocks : ℚ
  turnovers : TurnoverLine
  fouls : FoulLine
  fourFactors : FourFactorsLine
  deriving Repr, DecidableEq

/-- The team side of `perGameStats` (all fields read with `|| 0`). -/
structure PerGameTeam where
  threePointFieldGoalsMadePerGame : Option ℚ := none
  threePointFieldGoalsAttemptedPerGame : Option ℚ := none
  offensiveReboundsPerGame : Option ℚ := none
  turnoversPerGame : Option ℚ := none
  assistsPerGame : Option ℚ := none
  freeThrowsMadePerGame : Option ℚ := none
  freeThrowsAttemptedPerGame : Option ℚ := none
  freeThrowPct : Option ℚ := none
  foulsPerGame : Option ℚ := none
  defensiveReboundsPerGame : Option ℚ := none
  stealsPerGame : Option ℚ := none
  blocksPerGame : Option ℚ := none
  deriving Repr, DecidableEq

/-- The opponent side of `perGameStats`. -/
structure PerGameOpp where
  pointsPerGame : Option ℚ := none
  fieldGoalPct : Option ℚ := none
  threePointPct : Option ℚ := none
  turnoversForcedPerGame : Option ℚ := none
  deriving Repr, DecidableEq

/-- The `margins` object of `perGameStats`. -/
structure PerGameMargins where
  pointMargin : Option ℚ := none
  reboundMargin : Option ℚ := none
  turnoverMargin : Option ℚ := none
  deriving Repr, DecidableEq

/-- The `ratios` object of `perGameStats`. -/
structure PerGameRatios where
  assistToTurnoverRatio : Option ℚ := none
  deriving Repr, DecidableEq

/-- The optional `perGameStats` block. -/
structure PerGameStats where
  teamStats : Option PerGameTeam := none
  opponentStats : Option PerGameOpp := none
  margins : Option PerGameMargins := none
  ratios : Option PerGameRatios := none
  deriving Repr, DecidableEq

/-- A wins/losses pair of `possessionGameRecords`. -/
structure PossSplit where
  wins : ℚ
  losses : ℚ
  deriving Repr, DecidableEq

/-- The optional `possessionGameRecords` block. -/
structure PossessionGameRecords where
  onePossession : Option PossSplit := none
  twoPossession : Option PossSplit := none
  deriving Repr, DecidableEq

/-- A home/away/neutral record whose fields are checked with
`!== undefined`. -/
structure RecordOpt where
  wins : Option ℚ := none
  losses : Option ℚ := none
  games : Option ℚ := none
  deriving Repr, DecidableEq

/-- The `teamSeasonStats` object. -/
structure TeamSeasonStats where
  season : ℚ
  team : String
  conference : String
  games : ℚ
  wins : ℚ
  losses : ℚ
  totalMinutes : ℚ
  pace : ℚ
  teamStats : SideStats
  opponentStats : SideStats
  perGameStats : Option PerGameStats := none
  possessionGameRecords : Option PossessionGameRecords := none
  deriving Repr, DecidableEq

/-- The top-level document `GET_TEAM_SEASON_STATS` parses:
`teamSeasonStats` plus the top-level home/away/neutral records. -/
structure StatsDoc where
  teamSeasonStats : Option TeamSeasonStats := none
  homeRecord : Option RecordOpt := none
  awayRecord : Option RecordOpt := none
  neutralRecord : Option RecordOpt := none
  deriving Repr, DecidableEq

/-- The `=== GENERAL INFO ===` rows, including the
`["Win %", (stats.wins / stats.games * 100).toFixed(1) + "%"]` row with
JavaScript division semantics. -/
def statsGeneralRows (stats : TeamSeasonStats) : Table :=
  [[Cell.s "=== GENERAL INFO ==="],
   [Cell.s "Season", Cell.num stats.season],
   [Cell.s "Team", Cell.s stats.team],
   [Cell.s "Conference", Cell.s stats.conference],
   [Cell.s "Games", Cell.num stats.games],
   [Cell.s "Wins", Cell.num stats.wins],
   [Cell.s "Losses", Cell.num stats.losses],
   [Cell.s "Win %", Cell.s ((jsMul (jsDiv stats.wins stats.games) 100).toFixed 1 ++ "%")],
   [Cell.s "Total Minutes", Cell.num stats.totalMinutes],
   [Cell.s "Pace", Cell.num stats.pace],
   [Cell.s ""]]

/-- The `=== TEAM STATS ===` header rows. -/
def statsTeamHeaderRows (stats : TeamSeasonStats) : Table :=
  [[Cell.s "=== TEAM STATS ===", Cell.s "Team", Cell.s "Opponent"],
   [Cell.s "Possessions", Cell.num stats.teamStats.possessions, Cell.num stats.opponentStats.possessions],
   [Cell.s "True Shooting %", Cell.num stats.teamStats.trueShooting, Cell.num stats.opponentStats.trueShooting],
   [Cell.s "Rating", Cell.num stats.teamStats.rating, Cell.num stats.opponentStats.rating],
   [Cell.s ""]]

/-- The `--- Scoring ---` rows, including the
`["Points Per Game", (stats.teamStats.points.total / stats.games).toFixed(1), ...]`
row with JavaScript division semantics. -/
def statsScoringRows (stats : TeamSeasonStats) : Table :=
  [[Cell.s "--- Scoring ---"],
   [Cell.s "Total Points", Cell.num stats.teamStats.points.total, Cell.num stats.opponentStats.points.total],
   [Cell.s "Points Per Game",
     Cell.s ((jsDiv stats.teamStats.points.total stats.games).toFixed 1),
     Cell.s ((jsDiv stats.opponentStats.points.total stats.games).toFixed 1)],
   [Cell.s "Points in Paint", Cell.num stats.teamStats.points.inPaint, Cell.num stats.opponentStats.points.inPaint],
   [Cell.s "Points off Turnovers", Cell.num stats.teamStats.points.offTurnovers, Cell.num stats.opponentStats.points.offTurnovers],
   [Cell.s "Fast Break Points", Cell.num stats.teamStats.points.fastBreak, Cell.num stats.opponentStats.points.fastBreak],
   [Cell.s ""]]

/-- The three rows of one made/attempted/pct shooting section. -/
def statsShotRows (label : String) (madeLabel attLabel pctLabel : String)
    (team opp : MadeAttPct) : Table :=
  [[Cell.s label],
   [Cell.s madeLabel, Cell.num team.made, Cell.num opp.made],
   [Cell.s attLabel, Cell.num team.attempted, Cell.num opp.attempted],
   [Cell.s pctLabel, Cell.s (renderNum team.pct ++ "%"), Cell.s (renderNum opp.pct ++ "%")],
   [Cell.s ""]]

/-- The `--- Rebounds ---` through `--- Four Factors ---` rows. -/
def statsTailRows (stats : TeamSeasonStats) : Table :=
  [[Cell.s "--- Rebounds ---"],
   [Cell.s "Offensive Rebounds", Cell.num stats.teamStats.rebounds.offensive, Cell.num stats.opponentStats.rebounds.offensive],
   [Cell.s "Defensive Rebounds", Cell.num stats.teamStats.rebounds.defensive, Cell.num stats.opponentStats.rebounds.defensive],
   [Cell.s "Total Rebounds", Cell.num stats.teamStats.rebounds.total, Cell.num stats.opponentStats.rebounds.total],
   [Cell.s ""],
   [Cell.s "--- Other Stats ---"],
   [Cell.s "Assists", Cell.num stats.teamStats.assists, Cell.num stats.opponentStats.assists],
   [Cell.s "Steals", Cell.num stats.teamStats.steals, Cell.num stats.opponentStats.steals],
   [Cell.s "Blocks", Cell.num stats.teamStats.blocks, Cell.num stats.opponentStats.blocks],
   [Cell.s "Turnovers", Cell.num stats.teamStats.turnovers.total, Cell.num stats.opponentStats.turnovers.total],
   [Cell.s "Team Turnovers", Cell.num stats.teamStats.turnovers.teamTotal, Cell.num stats.opponentStats.turnovers.teamTotal],
   [Cell.s ""],
   [Cell.s "--- Fouls ---"],
   [Cell.s "Total Fouls", Cell.num stats.teamStats.fouls.total, Cell.num stats.opponentStats.fouls.total],
   [Cell.s "Technical Fouls", Cell.num stats.teamStats.fouls.technical, Cell.num stats.opponentStats.fouls.technical],
   [Cell.s "Flagrant Fouls", Cell.num stats.teamStats.fouls.flagrant, Cell.num stats.opponentStats.fouls.flagrant],
   [Cell.s ""],
   [Cell.s "--- Four Factors ---"],
   [Cell.s "Effective FG %", Cell.s (renderNum stats.teamStats.fourFactors.effectiveFieldGoalPct ++ "%"), Cell.s (renderNum stats.opponentStats.fourFactors.effectiveFieldGoalPct ++ "%")],
   [Cell.s "Turnover Ratio", Cell.num stats.teamStats.fourFactors.turnoverRatio, Cell.num stats.opponentStats.fourFactors.turnoverRatio],
   [Cell.s "Offensive Rebound %", Cell.s (renderNum stats.teamStats.fourFactors.offensiveReboundPct ++ "%"), Cell.s (renderNum stats.opponentStats.fourFactors.offensiveReboundPct ++ "%")],
   [Cell.s "Free Throw Rate", Cell.s (renderNum stats.teamStats.fourFactors.freeThrowRate ++ "%"), Cell.s (renderNum stats.opponentStats.fourFactors.freeThrowRate ++ "%")]]

/-- A per-game cell `(x || 0).toFixed(2)`. -/
def pgCell2 (x : Option ℚ) : Cell :=
  Cell.s (toFixedQ 2 (jsOrNum x 0))

/-- A per-game percentage cell `(x || 0).toFixed(1) + "%"`. -/
def pgCellPct (x : Option ℚ) : Cell :=
  Cell.s (toFixedQ 1 (jsOrNum x 0) ++ "%")

/-- The team half of the `--- Per Game Stats ---` rows. -/
def statsPerGameTeamRows (pgTeam : Option PerGameTeam) : Table :=
  [[Cell.s "3PT FGM/G", pgCell2 (pgTeam.bind (fun t => t.threePointFieldGoalsMadePerGame)), Cell.s ""],
   [Cell.s "3PT FGA/G", pgCell2 (pgTeam.bind (fun t => t.threePointFieldGoalsAttemptedPerGame)), Cell.s ""],
   [Cell.s "Off Reb/G", pgCell2 (pgTeam.bind (fun t => t.offensiveReboundsPerGame)), Cell.s ""],
   [Cell.s "TO/G", pgCell2 (pgTeam.bind (fun t => t.turnoversPerGame)), Cell.s ""],
   [Cell.s "APG", pgCell2 (pgTeam.bind (fun t => t.assistsPerGame)), Cell.s ""],
   [Cell.s "FTM/G", pgCell2 (pgTeam.bind (fun t => t.freeThrowsMadePerGame)), Cell.s ""],
   [Cell.s "FTA/G", pgCell2 (pgTeam.bind (fun t => t.freeThrowsAttemptedPerGame)), Cell.s ""],
   [Cell.s "FT%", pgCellPct (pgTeam.bind (fun t => t.freeThrowPct)), Cell.s ""],
   [Cell.s "Fouls/G", pgCell2 (pgTeam.bind (fun t => t.foulsPerGame)), Cell.s ""],
   [Cell.s "Def Rebs/G", pgCell2 (pgTeam.bind (fun t => t.defensiveReboundsPerGame)), Cell.s ""],
   [Cell.s "SPG", pgCell2 (pgTeam.bind (fun t => t.stealsPerGame)), Cell.s ""],
   [Cell.s "BPG", pgCell2 (pgTeam.bind (fun t => t.blocksPerGame)), Cell.s ""]]

/-- The opponent half of the per-game rows. -/
def statsPerGameOppRows (pgOpp : Option PerGameOpp) : Table :=
  [[Cell.s "Def. PPG", Cell.s "", pgCell2 (pgOpp.bind (fun t => t.pointsPerGame))],
   [Cell.s "Def. FG%", Cell.s "", pgCellPct (pgOpp.bind (fun t => t.fieldGoalPct))],
   [Cell.s "Def. 3P%", Cell.s "", pgCellPct (pgOpp.bind (fun t => t.threePointPct))],
   [Cell.s "TO Forced/G", Cell.s "", pgCell2 (pgOpp.bind (fun t => t.turnoversForcedPerGame))]]

/-- The margins and ratios per-game rows. -/
def statsPerGameMarginRatioRows (pgMargins : Option PerGameMargins)
    (pgRatios : Option PerGameRatios) : Table :=
  [[Cell.s "Point Margin", pgCell2 (pgMargins.bind (fun t => t.pointMargin)), Cell.s ""],
   [Cell.s "Rebound Margin", pgCell2 (pgMargins.bind (fun t => t.reboundMargin)), Cell.s ""],
   [Cell.s "TO Margin", pgCell2 (pgMargins.bind (fun t => t.turnoverMargin)), Cell.s ""],
   [Cell.s ""],
   [Cell.s "--- Ratios ---"],
   [Cell.s "A:TO Ratio", pgCell2 (pgRatios.bind (fun t => t.assistToTurnoverRatio)), Cell.s ""]]

/-- The `--- Per Game Stats ---` rows pushed after the main literal
(missing blocks default to empty objects, so every field defaults). -/
def statsPerGameRows (stats : TeamSeasonStats) : Table :=
  let pg := stats.perGameStats
  [[Cell.s ""],
   [Cell.s "--- Per Game Stats ---"],
   [Cell.s "", Cell.s "Team", Cell.s "Opponent"]] ++
    statsPerGameTeamRows (pg.bind (fun p => p.teamStats)) ++
    [[Cell.s ""], [Cell.s "--- Opponent Per Game Stats ---"]] ++
    statsPerGameOppRows (pg.bind (fun p => p.opponentStats)) ++
    [[Cell.s ""], [Cell.s "--- Margins (Per Game) ---"]] ++
    statsPerGameMarginRatioRows (pg.bind (fun p => p.margins)) (pg.bind (fun p => p.ratios))

/-- A possession-record cell (`wins + "-" + losses` or `"0-0"`). -/
def possCell (x : Option PossSplit) : Cell :=
  match x with
  | some p => Cell.s (renderNum p.wins ++ "-" ++ renderNum p.losses)
  | none => Cell.s "0-0"

/-- The `=== POSSESSION GAME RECORDS ===` rows. -/
def statsPossessionRows (stats : TeamSeasonStats) : Table :=
  [[Cell.s ""],
   [Cell.s "=== POSSESSION GAME RECORDS ==="],
   [Cell.s "1-Possession Games", possCell (stats.possessionGameRecords.bind (fun r => r.onePossession))],
   [Cell.s "2-Possession Games", possCell (stats.possessionGameRecords.bind (fun r => r.twoPossession))]]

/-- A wins/losses/games cell rendered as the number or `"N/A"`. -/
def recNumCell (x : Option ℚ) : Cell :=
  match x with
  | some v => Cell.num v
  | none => Cell.s "N/A"

/-- A `wins + "-" + losses` record string, `"N/A"` unless both parts are
defined. -/
def recStrCell (r : RecordOpt) : Cell :=
  match r.wins, r.losses with
  | some w, some l => Cell.s (renderNum w ++ "-" ++ renderNum l)
  | _, _ => Cell.s "N/A"

/-- The four rows for one home/away/neutral record. -/
def statsRecordRows (label : String) (r : Option RecordOpt) : Table :=
  let rec' := r.getD {}
  [[Cell.s (label ++ " Record"), recStrCell rec'],
   [Cell.s (label ++ " Wins"), recNumCell rec'.wins],
   [Cell.s (label ++ " Losses"), recNumCell rec'.losses],
   [Cell.s (label ++ " Games"), recNumCell rec'.games]]

/-- The `=== HOME/AWAY/NEUTRAL RECORDS ===` rows (read off the top-level
document, not `teamSeasonStats`). -/
def statsHomeAwayRows (data : StatsDoc) : Table :=
  [[Cell.s ""], [Cell.s "=== HOME/AWAY/NEUTRAL RECORDS ==="]] ++
    statsRecordRows "Home" data.homeRecord ++
    statsRecordRows "Away" data.awayRecord ++
    statsRecordRows "Neutral" data.neutralRecord

/-- The full `GET_TEAM_SEASON_STATS` table for a parsed document whose
`teamSeasonStats` is present. -/
def teamSeasonStatsTable (data : StatsDoc) (stats : TeamSeasonStats) : Table :=
  statsGeneralRows stats ++ statsTeamHeaderRows stats ++ statsScoringRows stats ++
    statsShotRows "--- Field Goals ---" "FG Made" "FG Attempted" "FG %"
      stats.teamStats.fieldGoals stats.opponentStats.fieldGoals ++
    statsShotRows "--- Two-Point Field Goals ---" "2PT Made" "2PT Attempted" "2PT %"
      stats.teamStats.twoPointFieldGoals stats.opponentStats.twoPointFieldGoals ++
    statsShotRows "--- Three-Point Field Goals ---" "3PT Made" "3PT Attempted" "3PT %"
      stats.teamStats.threePointFieldGoals stats.opponentStats.threePointFieldGoals ++
    statsShotRows "--- Free Throws ---" "FT Made" "FT Attempted" "FT %"
      stats.teamStats.freeThrows stats.opponentStats.freeThrows ++
    statsTailRows stats ++ statsPerGameRows stats ++ statsPossessionRows stats ++
    statsHomeAwayRows data

/-- Body of `GET_TEAM_SEASON_STATS`: parse, read `data.teamSeasonStats`
(the first dereference `stats.season` throws when it is absent), then
build the table. -/
def GET_TEAM_SEASON_STATS_body (fetched : Except JsError StatsDoc) :
    Except JsError Table := do
  let data ← fetched
  let stats ← jsGetField data.teamSeasonStats "season"
  pure (teamSeasonStatsTable data stats)

/-- `GET_TEAM_SEASON_STATS` with its `try`/`catch` wrapper
(`return [["Error: " + e.message]]`). -/
def GET_TEAM_SEASON_STATS (fetched : Except JsError StatsDoc) : Table :=
  match GET_TEAM_SEASON_STATS_body fetched with
  | .ok t => t
  | .error e => [[.s ("Error: " ++ e.message)]]


/-! ## `GET_TEAM_META` (the `unnamed/part_001` variant)

This copy renders the NET-rating and coach-history enrichment blocks;
the enrichment keys are optional in the document and produce rows only
when present. -/

/-- The `metadata` object (`totalPlayers`, `apiCalls`). -/
structure MetaCounts where
  totalPlayers : Option ℚ := none
  apiCalls : Option ℚ := none
  deriving Repr, DecidableEq

/-- A total/conference record object with mandatory fields. -/
structure RecordWLG where
  wins : ℚ
  losses : ℚ
  games : ℚ
  deriving Repr, DecidableEq

/-- The optional `netRating` enrichment block. -/
structure NetRating where
  rating : Option ℚ := none
  previousRating : Option ℚ := none
  source : Option String := none
  url : Option String := none
  deriving Repr, DecidableEq

/-- One row of `coachHistory.seasons` (each field rendered with
`|| ""`; values may be strings or numbers, hence `Cell`). -/
structure CoachSeasonRow where
  season : Option Cell := none
  conference : Option Cell := none
  overallWL : Option Cell := none
  conferenceWL : Option Cell := none
  ncaaTournament : Option Cell := none
  seed : Option Cell := none
  coach : Option Cell := none
  deriving Repr, DecidableEq

/-- The optional `coachHistory` enrichment block. -/
structure CoachHistory where
  seasons : Option (List CoachSeasonRow) := none
  averageOverallWins : Option ℚ := none
  averageConferenceWins : Option ℚ := none
  source : Option String := none
  url : Option String := none
  deriving Repr, DecidableEq

/-- The document `GET_TEAM_META` parses. -/
structure TeamMetaDoc where
  team : Option String := none
  season : Option ℚ := none
  seasonType : Option String := none
  dataGenerated : Option String := none
  metadata : Option MetaCounts := none
  mascot : Option String := none
  totalRecord : Option RecordWLG := none
  conferenceRecord : Option RecordWLG := none
  netRating : Option NetRating := none
  coachHistory : Option CoachHistory := none
  deriving Repr, DecidableEq

/-- A cell holding a possibly-absent string (absent renders as
JavaScript `undefined`). -/
def optCellS (x : Option String) : Cell :=
  match x with
  | some v => .s v
  | none => .jsUndefined

/-- A cell holding a possibly-absent number. -/
def optCellN (x : Option ℚ) : Cell :=
  match x with
  | some v => .num v
  | none => .jsUndefined

/-- JavaScript truthiness of a possibly-absent number. -/
def numTruthy (x : Option ℚ) : Bool :=
  match x with
  | some v => v ≠ 0
  | none => false

/-- The `Data Generated` cell: the raw `data.dataGenerated` when falsy
or when the inner date-formatting `try` fails, otherwise the formatted
timestamp.  `fmt` abstracts the `Date`/`Utilities.formatDate` conversion
(`none` models the inner `catch` falling back to the original value). -/
def dataGeneratedCell (fmt : String → Option String) (x : Option String) : Cell :=
  match x with
  | none => .jsUndefined
  | some s => if s ≠ "" then .s ((fmt s).getD s) else .s s

/-- The fixed header rows of `GET_TEAM_META` (`metadata` has already
been dereferenced successfully). -/
def teamMetaHeaderRows (fmt : String → Option String) (data : TeamMetaDoc)
    (md : MetaCounts) : Table :=
  [[Cell.s "Field", Cell.s "Value"],
   [Cell.s "Team", optCellS data.team],
   [Cell.s "Season", optCellN data.season],
   [Cell.s "Season Type", optCellS data.seasonType],
   [Cell.s "Data Generated", dataGeneratedCell fmt data.dataGenerated],
   [Cell.s "Total Players", optCellN md.totalPlayers],
   [Cell.s "API Calls", optCellN md.apiCalls]]

/-- The `Mascot` row, pushed only when `data.mascot` is truthy. -/
def mascotRows (data : TeamMetaDoc) : Table :=
  if strTruthy data.mascot then [[Cell.s "Mascot", optCellS data.mascot]] else []

/-- The `=== RECORD ===` block, pushed only when `data.totalRecord` is
present. -/
def totalRecordRows (r : Option RecordWLG) : Table :=
  match r with
  | none => []
  | some rec' =>
    [[Cell.s ""],
     [Cell.s "=== RECORD ==="],
     [Cell.s "Total Record", Cell.s (renderNum rec'.wins ++ "-" ++ renderNum rec'.losses)],
     [Cell.s "Total Wins", Cell.num rec'.wins],
     [Cell.s "Total Losses", Cell.num rec'.losses],
     [Cell.s "Total Games", Cell.num rec'.games]]

/-- The `=== CONFERENCE RECORD ===` block, pushed only when
`data.conferenceRecord` is present. -/
def conferenceRecordRows (r : Option RecordWLG) : Table :=
  match r with
  | none => []
  | some rec' =>
    [[Cell.s ""],
     [Cell.s "=== CONFERENCE RECORD ==="],
     [Cell.s "Conference Record", Cell.s (renderNum rec'.wins ++ "-" ++ renderNum rec'.losses)],
     [Cell.s "Conference Wins", Cell.num rec'.wins],
     [Cell.s "Conference Losses", Cell.num rec'.losses],
     [Cell.s "Conference Games", Cell.num rec'.games]]

/-- The `=== NET RATING ===` block, pushed only when `data.netRating` is
present; `Previous Rank` and `URL` rows are pushed only when their
fields are truthy, and `NET Rank`/`Source` default with `||`. -/
def netRatingRows (nr : Option NetRating) : Table :=
  match nr with
  | none => []
  | some n =>
    [[Cell.s ""],
     [Cell.s "=== NET RATING ==="],
     [Cell.s "NET Rank", jsOrCell (n.rating.map Cell.num) (Cell.s "N/A")]] ++
      (if numTruthy n.previousRating then
        [[Cell.s "Previous Rank", optCellN n.previousRating]] else []) ++
      [[Cell.s "Source", jsOrCell (n.source.map Cell.s) (Cell.s "bballnet.com")]] ++
      (if strTruthy n.url then [[Cell.s "URL", optCellS n.url]] else [])

/-- One data row of the coach-history table (each field `|| ""`). -/
def coachSeasonRow (cs : CoachSeasonRow) : Row :=
  [jsOrCell cs.season (Cell.s ""),
   jsOrCell cs.conference (Cell.s ""),
   jsOrCell cs.overallWL (Cell.s ""),
   jsOrCell cs.conferenceWL (Cell.s ""),
   jsOrCell cs.ncaaTournament (Cell.s ""),
   jsOrCell cs.seed (Cell.s ""),
   jsOrCell cs.coach (Cell.s "")]

/-- The `=== AVERAGES (Last 6 Seasons) ===` rows of the coach-history
block (pushed when either average is defined). -/
def coachAveragesRows (ch : CoachHistory) : Table :=
  if ch.averageOverallWins.isSome || ch.averageConferenceWins.isSome then
    [[Cell.s ""], [Cell.s "=== AVERAGES (Last 6 Seasons) ==="]] ++
      (match ch.averageOverallWins with
       | some v => [[Cell.s "Average Overall Wins", Cell.num v]]
       | none => []) ++
      (match ch.averageConferenceWins with
       | some v => [[Cell.s "Average Conference Wins", Cell.num v]]
       | none => [])
  else []

/-- The source/url footer rows of the coach-history block. -/
def coachFooterRows (ch : CoachHistory) : Table :=
  (if strTruthy ch.source then
    [[Cell.s ""], [Cell.s "Source", optCellS ch.source]] else []) ++
    (if strTruthy ch.url then [[Cell.s "URL", optCellS ch.url]] else [])

/-- The `=== COACH HISTORY (Last 6 Complete Seasons) ===` block, pushed
only when `coachHistory.seasons` is present and non-empty. -/
def coachHistoryRows (ch : Option CoachHistory) : Table :=
  match ch with
  | none => []
  | some c =>
    match c.seasons with
    | none => []
    | some ss =>
      if ss.isEmpty then []
      else
        [[Cell.s ""],
         [Cell.s "=== COACH HISTORY (Last 6 Complete Seasons) ==="],
         [Cell.s "Season", Cell.s "Conference", Cell.s "Overall W-L", Cell.s "Conf W-L",
          Cell.s "NCAA Tournament", Cell.s "Seed", Cell.s "Coach"]] ++
          ss.map coachSeasonRow ++ coachAveragesRows c ++ coachFooterRows c

/-- The full `GET_TEAM_META` table once `metadata` dereferenced. -/
def teamMetaTable (fmt : String → Option String) (data : TeamMetaDoc)
    (md : MetaCounts) : Table :=
  teamMetaHeaderRows fmt data md ++ mascotRows data ++
    totalRecordRows data.totalRecord ++ conferenceRecordRows data.conferenceRecord ++
    netRatingRows data.netRating ++ coachHistoryRows data.coachHistory

/-- Body of `GET_TEAM_META`: parse, read `data.metadata.totalPlayers`
(throws when `metadata` is absent), then build the table. -/
def GET_TEAM_META_body (fmt : String → Option String)
    (fetched : Except JsError TeamMetaDoc) : Except JsError Table := do
  let data ← fetched
  let md ← jsGetField data.metadata "totalPlayers"
  pure (teamMetaTable fmt data md)

/-- `GET_TEAM_META` with its `try`/`catch` wrapper
(`return [["Error: " + e.message]]`). -/
def GET_TEAM_META (fmt : String → Option String)
    (fetched : Except JsError TeamMetaDoc) : Table :=
  match GET_TEAM_META_body fmt fetched with
  | .ok t => t
  | .error e => [[.s ("Error: " ++ e.message)]]


/-! ## The status-polling loop of `scripts/generate-sheet.js` -/

/-- One response of `GET /api/status/:jobId` as the polling loop reads
it: the `status` string and the optional `error` field. -/
structure PollResp where
  status : String
  error : Option String := none
  deriving Repr, DecidableEq

/-- JavaScript `x || d` for a possibly-absent string with a string
default (`""` is falsy). -/
def jsOrStr (x : Option String) (d : String) : String :=
  match x with
  | some v => if v ≠ "" then v else d
  | none => d

/-- Outcome of the polling loop in `generateSheet`: the loop `break`s on
`"completed"`, `throw`s the job's error on `"failed"`, and after the
`while` exits with `attempts >= maxAttempts` the script throws
`"Generation timed out"`. -/
inductive PollOutcome where
  | completed (attempts : ℕ) (resp : PollResp)
  | failedErr (msg : String)
  | timedOut
  deriving Repr, DecidableEq

/-- The polling loop of `generateSheet`, indexed by the number of
remaining iterations (`maxAttempts - attempts`): poll, break on
`"completed"`, throw on `"failed"`, else sleep and increment. `poll k`
is the response to the `k`-th status request (0-based). -/
def pollFrom (poll : ℕ → PollResp) : ℕ → ℕ → PollOutcome
  | 0, _ => .timedOut
  | remaining + 1, attempts =>
    let s := poll attempts
    if s.status = "completed" then .completed attempts s
    else if s.status = "failed" then .failedErr (jsOrStr s.error "Generation failed")
    else pollFrom poll remaining (attempts + 1)

/-- `const maxAttempts = 120; // 10 minutes max`. -/
def maxAttempts : ℕ := 120

/-- The whole `while (attempts < maxAttempts)` loop of `generateSheet`,
starting from `attempts = 0`. -/
def generateSheetPoll (poll : ℕ → PollResp) : PollOutcome :=
  pollFrom poll maxAttempts 0

/-! ## The job lifecycle (Job Orchestrator)

Modelled from the spec: the orchestrator itself (`web-ui/app.py`, the
Flask service behind `/api/generate` and `/api/status`) is not part of
the sources; only its clients are.  Section 4.6 of the spec defines the
state machine `queued → running → {completed, failed, cancelled}` with
terminal states having no further transitions and progress
non-decreasing within a run. -/

/-- Modelled from the spec: job status values
(`queued | running | completed | failed | cancelled`). -/
inductive JobStatus where
  | queued
  | running
  | completed
  | failed
  | cancelled
  deriving Repr, DecidableEq

/-- Position of a status along the forward chain
`queued → running → terminal`. -/
def statusRank : JobStatus → ℕ
  | .queued => 0
  | .running => 1
  | .completed => 2
  | .failed => 2
  | .cancelled => 2

/-- Whether a status is terminal. -/
def JobStatus.isTerminal : JobStatus → Bool
  | .completed => true
  | .failed => true
  | .cancelled => true
  | _ => false

/-- A polled job snapshot: status plus progress. -/
structure JobSnapshot where
  status : JobStatus
  progress : ℕ
  deriving Repr, DecidableEq

/-- Modelled from the spec: the admissible status transitions
(`submit` puts the job in `queued`; the worker moves it to `running`
and then to exactly one terminal state). -/
inductive StatusEdge : JobStatus → JobStatus → Prop where
  | start : StatusEdge .queued .running
  | complete : StatusEdge .running .completed
  | fail : StatusEdge .running .failed
  | cancel : StatusEdge .running .cancelled

/-- Modelled from the spec: one orchestrator update of the job record —
either a progress/message update while `running` (progress
non-decreasing) or a status transition along an admissible edge. -/
inductive JobStep : JobSnapshot → JobSnapshot → Prop where
  | tick (p q : ℕ) : p ≤ q → JobStep ⟨.running, p⟩ ⟨.running, q⟩
  | advance (s t : JobStatus) (p q : ℕ) :
      StatusEdge s t → p ≤ q → JobStep ⟨s, p⟩ ⟨t, q⟩

/-- Zero or more orchestrator updates: what can happen between two
status polls of the same job. -/
def JobReach : JobSnapshot → JobSnapshot → Prop :=
  Relation.ReflTransGen JobStep

/-! ## Conference competition ranking (Derived Stats Calculator)

Modelled from the spec: the ranking computation lives in the Python
data generator, which is not part of the sources.  Section 4.4 of the
spec: 1-based rank under descending sort of the stat value, ties share
the lower (better) rank, the next distinct value continues numbering as
if ties occupied consecutive slots, and the total player count for the
category is recorded alongside. -/

/-- Modelled from the spec: a player's 1-based competition rank for a
stat value `v` among `values` — sort descending, rank = 1 + index of
the first occurrence of `v` in the sorted list. -/
def rankOf (values : List ℚ) (v : ℚ) : ℕ :=
  1 + (values.mergeSort (fun a b => decide (b ≤ a))).findIdx (fun w => w == v)

/-- Modelled from the spec: the rank/total pair recorded for each
player of a conference stat category. -/
def conferenceRanks (values : List ℚ) : List (ℕ × ℕ) :=
  values.map (fun v => (rankOf values v, values.length))


/-! ## Concrete sample inputs used by witnesses and counterexamples -/

/-- A previous season (year 2023, team `aaa`, 10 games, 4 started). -/
def psA : PreviousSeason :=
  { season := some 2023, team := "aaa", games := some 10, gamesStarted := some 4,
    seasonStats := {} }

/-- A previous season (year 2022, team `bbb`, 20 games, 9 started). -/
def psB : PreviousSeason :=
  { season := some 2022, team := "bbb", games := some 20, gamesStarted := some 9,
    seasonStats := {} }

/-- A player whose `previousSeasons` list the two summary
implementations disagree on: the newest season is listed first, so the
take-last-element copy picks the older one. -/
def samplePlayerPrev : Player :=
  { name := "John Doe", seasonTotals := {}, previousSeasons := [psA, psB] }

/-- A one-player document for the previous-season summary claims. -/
def samplePrevDoc : PlayersDoc :=
  { players := [samplePlayerPrev] }

/-- An all-zero side-stats object. -/
def zeroSide : SideStats :=
  { possessions := 0, trueShooting := 0, rating := 0,
    points := { total := 0, inPaint := 0, offTurnovers := 0, fastBreak := 0 },
    fieldGoals := { made := 0, attempted := 0, pct := 0 },
    twoPointFieldGoals := { made := 0, attempted := 0, pct := 0 },
    threePointFieldGoals := { made := 0, attempted := 0, pct := 0 },
    freeThrows := { made := 0, attempted := 0, pct := 0 },
    rebounds := { offensive := 0, defensive := 0, total := 0 },
    assists := 0, steals := 0, blocks := 0,
    turnovers := { total := 0, teamTotal := 0 },
    fouls := { total := 0, technical := 0, flagrant := 0 },
    fourFactors := { effectiveFieldGoalPct := 0, turnoverRatio := 0,
                     offensiveReboundPct := 0, freeThrowRate := 0 } }

/-- A season-stats object with `games = 0` (a season with no games
played yet). -/
def zeroGamesStats : TeamSeasonStats :=
  { season := 2026, team := "Oregon", conference := "B1G",
    games := 0, wins := 0, losses := 0, totalMinutes := 0, pace := 0,
    teamStats := zeroSide, opponentStats := zeroSide }

/-- A stats document with `games = 0`. -/
def zeroGamesDoc : StatsDoc :=
  { teamSeasonStats := some zeroGamesStats }

/-- A team-meta document carrying both enrichment blocks. -/
def sampleMetaDoc : TeamMetaDoc :=
  { team := some "Oregon", season := some 2026, metadata := some {},
    netRating := some { rating := some 25 },
    coachHistory := some { seasons := some [{ coach := some (Cell.s "K. Altman") }] } }

/-- A team-meta document carrying neither enrichment block. -/
def bareMetaDoc : TeamMetaDoc :=
  { team := some "Oregon", season := some 2026, metadata := some {} }

/-- A game-log entry for the last-N-games witness. -/
def gameOne : GameEntry :=
  { date := "2026-01-01", opponent := "UCLA", isHome := true,
    conferenceGame := true, starter := true, minutes := 30, points := 12,
    rebounds := { offensive := 1, defensive := 4 }, assists := 3,
    turnovers := 2, steals := 1, blocks := 0, ejected := false,
    fieldGoals := { made := 5, attempted := 9 },
    threePointFieldGoals := { made := 1, attempted := 3 },
    freeThrows := { made := 1, attempted := 2 } }

/-- A second game-log entry. -/
def gameTwo : GameEntry :=
  { date := "2026-01-04", opponent := "USC", isHome := false,
    conferenceGame := true, starter := false, minutes := 21, points := 7,
    rebounds := { offensive := 0, defensive := 2 }, assists := 1,
    turnovers := 1, steals := 0, blocks := 1, ejected := false,
    fieldGoals := { made := 3, attempted := 7 },
    threePointFieldGoals := { made := 0, attempted := 2 },
    freeThrows := { made := 1, attempted := 1 } }

/-- A three-game log for the last-N-games witness. -/
def samplePlayerGames : Player :=
  { name := "Jane Roe", seasonTotals := {}, gameByGame := [gameOne, gameTwo, gameOne] }

/-- A one-player document for the last-N-games witness. -/
def sampleGamesDoc : PlayersDoc :=
  { players := [samplePlayerGames] }

/-- A status stream that reports `running` twice and then `completed`. -/
def pollEventuallyCompleted : ℕ → PollResp :=
  fun i => if i = 2 then { status := "completed" } else { status := "running" }

/-- A status stream stuck on `cancelled` forever (neither `completed`
nor `failed`). -/
def pollForeverCancelled : ℕ → PollResp :=
  fun _ => { status := "cancelled" }


/-! ## Theorems -/

/-- A stable sort by a descending rational key is pairwise-descending. -/
theorem pairwise_mergeSort_desc {α : Type} (key : α → ℚ) (l : List α) :
    (l.mergeSort (fun a b => decide (key b ≤ key a))).Pairwise
      (fun a b => key b ≤ key a) := by
  have h := @List.sorted_mergeSort α (fun a b : α => decide (key b ≤ key a))
    (fun a b c hab hbc => by
      simp only [decide_eq_true_eq] at *
      exact le_trans hbc hab)
    (fun a b => by
      simp only [Bool.or_eq_true, decide_eq_true_eq]
      exact le_total (key b) (key a)) l
  exact h.imp (fun hab => by simpa using hab)

/-- A stable sort by an ascending rational key is pairwise-ascending. -/
theorem pairwise_mergeSort_asc {α : Type} (key : α → ℚ) (l : List α) :
    (l.mergeSort (fun a b => decide (key a ≤ key b))).Pairwise
      (fun a b => key a ≤ key b) := by
  have h := @List.sorted_mergeSort α (fun a b : α => decide (key a ≤ key b))
    (fun a b c hab hbc => by
      simp only [decide_eq_true_eq] at *
      exact le_trans hab hbc)
    (fun a b => by
      simp only [Bool.or_eq_true, decide_eq_true_eq]
      exact le_total (key a) (key b)) l
  exact h.imp (fun hab => by simpa using hab)

/-- In a descending-sorted list, the index of the first occurrence of a
member `v` equals the number of elements strictly greater than `v`. -/
theorem findIdx_eq_countP_of_sorted :
    ∀ (L : List ℚ), L.Pairwise (fun a b => b ≤ a) → ∀ v ∈ L,
      L.findIdx (fun w => w == v) = L.countP (fun w => decide (v < w)) := by
  intro L
  induction L with
  | nil => intro _ v hv; cases hv
  | cons x xs ih =>
    intro hp v hv
    have hx : ∀ y ∈ xs, y ≤ x := (List.pairwise_cons.mp hp).1
    have hxs : xs.Pairwise (fun a b => b ≤ a) := (List.pairwise_cons.mp hp).2
    by_cases hxv : x = v
    · subst hxv
      have h0 : xs.countP (fun w => decide (x < w)) = 0 := by
        apply List.countP_eq_zero.mpr
        intro y hy
        simpa using not_lt_of_le (hx y hy)
      simp [List.findIdx_cons, List.countP_cons, h0]
    · have hvxs : v ∈ xs := by
        rcases List.mem_cons.mp hv with h | h
        · exact absurd h.symm hxv
        · exact h
      have hvx : v < x := lt_of_le_of_ne (hx v hvxs) (fun h => hxv h.symm)
      have hbeq : (x == v) = false := by
        simpa using (fun h => hxv h)
      simp [List.findIdx_cons, hbeq, List.countP_cons, hvx, ih hxs v hvxs,
        Nat.add_comm]

unseal List.merge List.mergeSort in
/-- C7: the conference ranking function assigns each player the 1-based
competition rank under descending sort — the rank of value `v` is one
more than the number of strictly greater values, so tied players share
the lowest rank of their tie group and the next distinct value continues
as if the ties occupied consecutive slots; the stat values
`[30, 30, 25, 20, 10]` receive ranks `[1, 1, 3, 4, 5]`, each recorded
alongside the total player count `5`. -/
theorem conferenceRanks_competition_ranking :
    (∀ (values : List ℚ) (v : ℚ), v ∈ values →
       rankOf values v = 1 + (values.filter (fun w => decide (v < w))).length) ∧
    conferenceRanks [30, 30, 25, 20, 10] =
      [(1, 5), (1, 5), (3, 5), (4, 5), (5, 5)] := by
  constructor
  · intro values v hv
    have hperm := List.mergeSort_perm values (fun a b => decide (b ≤ a))
    have hsorted := pairwise_mergeSort_desc (fun q : ℚ => q) values
    have hvmem : v ∈ values.mergeSort (fun a b => decide (b ≤ a)) :=
      hperm.mem_iff.mpr hv
    have hidx := findIdx_eq_countP_of_sorted _ hsorted v hvmem
    have hcount : (values.mergeSort (fun a b => decide (b ≤ a))).countP
        (fun w => decide (v < w)) = values.countP (fun w => decide (v < w)) :=
      hperm.countP_eq _
    simp only [rankOf]
    rw [hidx, hcount, List.countP_eq_length_filter]
  · decide

/-- Witness for C7 at a concrete conference: the value `25` among
`[30, 30, 25]` has two strictly greater values, hence rank 3. -/
theorem conferenceRanks_competition_ranking_witness :
    rankOf [30, 30, 25] 25 =
      1 + (([30, 30, 25] : List ℚ).filter (fun w => decide ((25 : ℚ) < w))).length :=
  conferenceRanks_competition_ranking.1 [30, 30, 25] 25 (by decide)


/-- When every remaining poll reports neither `completed` nor `failed`,
the loop exhausts its attempts and times out. -/
theorem pollFrom_timedOut (poll : ℕ → PollResp) :
    ∀ (r a : ℕ),
      (∀ i, a ≤ i → i < a + r →
        (poll i).status ≠ "completed" ∧ (poll i).status ≠ "failed") →
      pollFrom poll r a = .timedOut := by
  intro r
  induction r with
  | zero => intro a _; rfl
  | succ r ih =>
    intro a h
    have ha := h a (le_refl a) (by omega)
    simp only [pollFrom, ha.1, ha.2, if_false, if_neg]
    exact ih (a + 1) (fun i h1 h2 => h i (by omega) (by omega))

/-- The loop's outcome is determined by the responses to its first `r`
polls (starting at attempt `a`). -/
theorem pollFrom_congr (poll poll' : ℕ → PollResp) :
    ∀ (r a : ℕ), (∀ i, a ≤ i → i < a + r → poll i = poll' i) →
      pollFrom poll r a = pollFrom poll' r a := by
  intro r
  induction r with
  | zero => intro a _; rfl
  | succ r ih =>
    intro a h
    have ha : poll a = poll' a := h a (le_refl a) (by omega)
    simp only [pollFrom, ha]
    split
    · rfl
    · split
      · rfl
      · exact ih (a + 1) (fun i h1 h2 => h i (by omega) (by omega))

/-- When the polls before attempt `k` report neither terminal success
nor failure, the loop's outcome is decided at attempt `k`: break with
the response on `completed`, throw the job's error on `failed`. -/
theorem pollFrom_first (poll : ℕ → PollResp) :
    ∀ (r a k : ℕ), a ≤ k → k < a + r →
      (∀ i, a ≤ i → i < k →
        (poll i).status ≠ "completed" ∧ (poll i).status ≠ "failed") →
      ((poll k).status = "completed" → pollFrom poll r a = .completed k (poll k)) ∧
      ((poll k).status ≠ "completed" → (poll k).status = "failed" →
        pollFrom poll r a = .failedErr (jsOrStr (poll k).error "Generation failed")) := by
  intro r
  induction r with
  | zero => intro a k h1 h2; omega
  | succ r ih =>
    intro a k hak hkr hbefore
    by_cases hk : a = k
    · subst hk
      constructor
      · intro hc
        simp only [pollFrom]
        rw [if_pos hc]
      · intro hnc hf
        simp only [pollFrom]
        rw [if_neg hnc, if_pos hf]
    · have hlt : a < k := lt_of_le_of_ne hak hk
      have ha := hbefore a (le_refl a) hlt
      have step := ih (a + 1) k (by omega) (by omega)
        (fun i h1 h2 => hbefore i (by omega) h2)
      constructor
      · intro hc
        simp only [pollFrom, ha.1, ha.2, if_false, if_neg]
        exact step.1 hc
      · intro hnc hf
        simp only [pollFrom, ha.1, ha.2, if_false, if_neg]
        exact step.2 hnc hf

/-- C10: the status-polling loop of `generateSheet` performs at most 120
polls and always terminates — its outcome depends only on the first 120
responses; it breaks out as soon as a poll reports `completed`, throws
the job's error as soon as a poll reports `failed`, and when neither
status occurs within 120 polls (for example a job that ends
`cancelled`) it gives up with the generation-timed-out outcome instead
of polling forever. -/
theorem generateSheetPoll_spec :
    (∀ poll poll' : ℕ → PollResp, (∀ i, i < 120 → poll i = poll' i) →
       generateSheetPoll poll = generateSheetPoll poll') ∧
    (∀ (poll : ℕ → PollResp) (k : ℕ), k < 120 →
       (∀ i, i < k → (poll i).status ≠ "completed" ∧ (poll i).status ≠ "failed") →
       ((poll k).status = "completed" →
          generateSheetPoll poll = .completed k (poll k)) ∧
       ((poll k).status ≠ "completed" → (poll k).status = "failed" →
          generateSheetPoll poll =
            .failedErr (jsOrStr (poll k).error "Generation failed"))) ∧
    (∀ poll : ℕ → PollResp,
       (∀ i, i < 120 → (poll i).status ≠ "completed" ∧ (poll i).status ≠ "failed") →
       generateSheetPoll poll = .timedOut) := by
  refine ⟨?_, ?_, ?_⟩
  · intro poll poll' h
    exact pollFrom_congr poll poll' maxAttempts 0 (fun i _ h2 => h i (by simpa [maxAttempts] using h2))
  · intro poll k hk hbefore
    exact pollFrom_first poll maxAttempts 0 k (Nat.zero_le k)
      (by simpa [maxAttempts] using hk) (fun i _ h2 => hbefore i h2)
  · intro poll h
    exact pollFrom_timedOut poll maxAttempts 0
      (fun i _ h2 => h i (by simpa [maxAttempts] using h2))

/-- Witness for C10: a job stuck on `cancelled` forever makes the loop
time out, and a job completing on the third poll stops the loop there. -/
theorem generateSheetPoll_spec_witness :
    generateSheetPoll pollForeverCancelled = .timedOut ∧
    generateSheetPoll pollEventuallyCompleted =
      .completed 2 (pollEventuallyCompleted 2) := by
  constructor
  · exact generateSheetPoll_spec.2.2 pollForeverCancelled
      (fun i _ => by simp [pollForeverCancelled])
  · exact (generateSheetPoll_spec.2.1 pollEventuallyCompleted 2 (by omega)
      (fun i hi => by
        interval_cases i <;> simp [pollEventuallyCompleted])).1
      (by simp [pollEventuallyCompleted])


/-- One orchestrator update never starts from a terminal status. -/
theorem JobStep.not_terminal {s t : JobSnapshot} (h : JobStep s t) :
    s.status.isTerminal = false := by
  cases h with
  | tick p q hpq => rfl
  | advance a b p q hedge hpq => cases hedge <;> rfl

/-- One orchestrator update moves the status rank forward and never
decreases progress. -/
theorem JobStep.monotone {s t : JobSnapshot} (h : JobStep s t) :
    statusRank s.status ≤ statusRank t.status ∧ s.progress ≤ t.progress := by
  cases h with
  | tick p q hpq => exact ⟨le_refl _, hpq⟩
  | advance a b p q hedge hpq =>
    refine ⟨?_, hpq⟩
    cases hedge <;> simp [statusRank]

/-- C6: across any sequence of orchestrator updates between two polls of
one job, the status only moves forward along
`queued → running → {completed, failed, cancelled}` (its rank along the
chain never decreases), no update ever leaves a terminal state (a
terminal snapshot can only reach itself), and the observed progress is
non-decreasing. -/
theorem job_status_forward_progress (s t : JobSnapshot) (h : JobReach s t) :
    statusRank s.status ≤ statusRank t.status ∧
    s.progress ≤ t.progress ∧
    (s.status.isTerminal = true → t = s) := by
  induction h with
  | refl => exact ⟨le_refl _, le_refl _, fun _ => rfl⟩
  | tail hreach hstep ih =>
    rename_i b c
    refine ⟨le_trans ih.1 hstep.monotone.1, le_trans ih.2.1 hstep.monotone.2, ?_⟩
    intro hterm
    have hb : b = s := ih.2.2 hterm
    subst hb
    have := hstep.not_terminal
    rw [hterm] at this
    cases this

/-- Witness for C6: a job that is submitted, starts running, makes
progress, and completes, polled at the start and at the end. -/
theorem job_status_forward_progress_witness :
    statusRank (JobSnapshot.mk .queued 0).status ≤
      statusRank (JobSnapshot.mk .completed 100).status ∧
    (JobSnapshot.mk .queued 0).progress ≤ (JobSnapshot.mk .completed 100).progress ∧
    ((JobSnapshot.mk .queued 0).status.isTerminal = true →
      JobSnapshot.mk .completed 100 = JobSnapshot.mk .queued 0) := by
  refine job_status_forward_progress _ _ ?_
  have h1 : JobStep ⟨.queued, 0⟩ ⟨.running, 10⟩ :=
    JobStep.advance _ _ _ _ StatusEdge.start (by omega)
  have h2 : JobStep ⟨.running, 10⟩ ⟨.running, 60⟩ :=
    JobStep.tick _ _ (by omega)
  have h3 : JobStep ⟨.running, 60⟩ ⟨.completed, 100⟩ :=
    JobStep.advance _ _ _ _ StatusEdge.complete (by omega)
  exact Relation.ReflTransGen.head h1 (Relation.ReflTransGen.head h2
    (Relation.ReflTransGen.single h3))


/-- C3 (refuted): on a stats document with `games = 0` the code does
not emit `0` for the per-game rows — JavaScript evaluates `0 / 0` to
`NaN`, so the `Win %` row carries the non-numeric string `"NaN%"` and
the `Points Per Game` row carries `"NaN"` on both sides. -/
theorem GET_TEAM_SEASON_STATS_zero_games_nan :
    (GET_TEAM_SEASON_STATS (.ok zeroGamesDoc)).filter
        (fun r => r.head? == some (Cell.s "Win %")) =
      [[Cell.s "Win %", Cell.s "NaN%"]] ∧
    (GET_TEAM_SEASON_STATS (.ok zeroGamesDoc)).filter
        (fun r => r.head? == some (Cell.s "Points Per Game")) =
      [[Cell.s "Points Per Game", Cell.s "NaN", Cell.s "NaN"]] := by
  constructor <;> decide


unseal List.merge List.mergeSort in
/-- C2: the two copies of `GET_PLAYER_PREVIOUS_SEASON_SUMMARY` are not
equivalent — on a document whose `previousSeasons` lists the newest
season first, the library copy (sort by year descending, print `games`)
returns the 2023 season's summary while the push-script copy (take the
last array element, print `gamesStarted`) returns the 2022 season's. -/
theorem GET_PLAYER_PREVIOUS_SEASON_SUMMARY_call_sites_differ :
    ∃ (fetched : Except JsError PlayersDoc) (playerName : String),
      GET_PLAYER_PREVIOUS_SEASON_SUMMARY fetched playerName ≠
        GET_PLAYER_PREVIOUS_SEASON_SUMMARY_push fetched playerName :=
  ⟨.ok samplePrevDoc, "John Doe", by decide⟩


/-- C1: for every player found in the document whose `previousSeasons`
list is non-empty, the library `GET_PLAYER_PREVIOUS_SEASON_SUMMARY`
returns the summary of a listed previous season whose season year
(`season || 0`) is numerically greatest — whatever order the seasons
appear in, the sort-by-year-descending selection always picks a
maximal-year entry. -/
theorem GET_PLAYER_PREVIOUS_SEASON_SUMMARY_selects_latest_season
    (doc : PlayersDoc) (playerName : String) (p : Player)
    (hfind : findPlayer doc playerName = some p)
    (hne : p.previousSeasons ≠ []) :
    ∃ s ∈ p.previousSeasons,
      GET_PLAYER_PREVIOUS_SEASON_SUMMARY (.ok doc) playerName =
        prevSeasonSummaryLib s ∧
      ∀ t ∈ p.previousSeasons, seasonKey t ≤ seasonKey s := by
  have hperm := List.mergeSort_perm p.previousSeasons
    (fun a b => decide (seasonKey b ≤ seasonKey a))
  obtain ⟨x, xs, hsort⟩ : ∃ x xs,
      p.previousSeasons.mergeSort (fun a b => decide (seasonKey b ≤ seasonKey a)) =
        x :: xs := by
    cases hs : p.previousSeasons.mergeSort
        (fun a b => decide (seasonKey b ≤ seasonKey a)) with
    | nil =>
      exfalso
      apply hne
      have hp := hperm
      rw [hs] at hp
      exact hp.symm.eq_nil
    | cons x xs => exact ⟨x, xs, rfl⟩
  have hsorted := pairwise_mergeSort_desc seasonKey p.previousSeasons
  rw [hsort] at hsorted hperm
  have hxmem : x ∈ p.previousSeasons := hperm.mem_iff.mp (List.mem_cons_self x xs)
  have hempty : p.previousSeasons.isEmpty = false := by
    cases hp : p.previousSeasons with
    | nil => exact absurd hp hne
    | cons a as => rfl
  refine ⟨x, hxmem, ?_, ?_⟩
  · simp only [GET_PLAYER_PREVIOUS_SEASON_SUMMARY,
      GET_PLAYER_PREVIOUS_SEASON_SUMMARY_body, Bind.bind, Except.bind, hfind,
      hempty, Bool.false_eq_true, if_false, hsort]
    rfl
  · intro t ht
    have hmem : t ∈ x :: xs := hperm.mem_iff.mpr ht
    rcases List.mem_cons.mp hmem with h | h
    · subst h; exact le_refl _
    · exact (List.pairwise_cons.mp hsorted).1 t h

/-- Witness for C1: on the sample document the selected season is the
2023 one even though a 2022 season follows it in the list. -/
theorem GET_PLAYER_PREVIOUS_SEASON_SUMMARY_selects_latest_season_witness :
    ∃ s ∈ samplePlayerPrev.previousSeasons,
      GET_PLAYER_PREVIOUS_SEASON_SUMMARY (.ok samplePrevDoc) "John Doe" =
        prevSeasonSummaryLib s ∧
      ∀ t ∈ samplePlayerPrev.previousSeasons, seasonKey t ≤ seasonKey s :=
  GET_PLAYER_PREVIOUS_SEASON_SUMMARY_selects_latest_season samplePrevDoc
    "John Doe" samplePlayerPrev (by decide) (by decide)


/-- C9: `GET_PLAYER_LAST_N_GAMES` returns the single-cell table
`"Player not found"` when the player is missing, `"No games found"`
when the game log is empty, and otherwise one header row plus exactly
`min n g` data rows — the final `min n g` entries of `gameByGame` in
their original order. -/
theorem GET_PLAYER_LAST_N_GAMES_last_min_games
    (doc : PlayersDoc) (playerName : String) (n : ℕ) :
    (findPlayer doc playerName = none →
       GET_PLAYER_LAST_N_GAMES (.ok doc) playerName n =
         [[Cell.s "Player not found"]]) ∧
    (∀ p, findPlayer doc playerName = some p → p.gameByGame = [] →
       GET_PLAYER_LAST_N_GAMES (.ok doc) playerName n =
         [[Cell.s "No games found"]]) ∧
    (∀ p, findPlayer doc playerName = some p → p.gameByGame ≠ [] →
       GET_PLAYER_LAST_N_GAMES (.ok doc) playerName n =
         lastNGamesHeader ::
           (p.gameByGame.drop
              (p.gameByGame.length - min n p.gameByGame.length)).map gameRow ∧
       (GET_PLAYER_LAST_N_GAMES (.ok doc) playerName n).length =
         1 + min n p.gameByGame.length) := by
  refine ⟨?_, ?_, ?_⟩
  · intro hnone
    simp only [GET_PLAYER_LAST_N_GAMES, GET_PLAYER_LAST_N_GAMES_body,
      Bind.bind, Except.bind, hnone]
    rfl
  · intro p hfind hempty
    have hb : p.gameByGame.isEmpty = true := by simp [hempty]
    simp only [GET_PLAYER_LAST_N_GAMES, GET_PLAYER_LAST_N_GAMES_body,
      Bind.bind, Except.bind, hfind, hb, if_true]
    rfl
  · intro p hfind hne
    have hb : p.gameByGame.isEmpty = false := by
      cases hg : p.gameByGame with
      | nil => exact absurd hg hne
      | cons a as => rfl
    have hres : GET_PLAYER_LAST_N_GAMES (.ok doc) playerName n =
        lastNGamesHeader ::
          (p.gameByGame.drop
             (p.gameByGame.length - min n p.gameByGame.length)).map gameRow := by
      simp only [GET_PLAYER_LAST_N_GAMES, GET_PLAYER_LAST_N_GAMES_body,
        Bind.bind, Except.bind, hfind, hb, Bool.false_eq_true, if_false]
      rfl
    refine ⟨hres, ?_⟩
    rw [hres]
    have hmin : min n p.gameByGame.length ≤ p.gameByGame.length :=
      Nat.min_le_right _ _
    simp only [List.length_cons, List.length_map, List.length_drop]
    omega

/-- Witness for C9: on the three-game sample log with `n = 2`, the
table is the header plus the last two games in order. -/
theorem GET_PLAYER_LAST_N_GAMES_last_min_games_witness :
    GET_PLAYER_LAST_N_GAMES (.ok sampleGamesDoc) "Jane Roe" 2 =
      lastNGamesHeader ::
        (samplePlayerGames.gameByGame.drop
           (samplePlayerGames.gameByGame.length -
              min 2 samplePlayerGames.gameByGame.length)).map gameRow ∧
    (GET_PLAYER_LAST_N_GAMES (.ok sampleGamesDoc) "Jane Roe" 2).length =
      1 + min 2 samplePlayerGames.gameByGame.length :=
  (GET_PLAYER_LAST_N_GAMES_last_min_games sampleGamesDoc "Jane Roe" 2).2.2
    samplePlayerGames (by decide) (by decide)


/-- C8: the data rows of `GET_PLAYERS_FULL` are exactly one row per
input player (a permutation of the players list): the first
`min 9 |players|` rows are players whose `mpg` is at least that of
every remaining player, ordered by ascending numeric jersey key, and
all remaining players follow ordered by descending total minutes. -/
theorem GET_PLAYERS_FULL_display_order (doc : PlayersDoc) :
    ∃ top rest : List Player,
      GET_PLAYERS_FULL (.ok doc) = playersFullHeader :: (top ++ rest).map playerRow ∧
      (top ++ rest).Perm doc.players ∧
      top.length = min 9 doc.players.length ∧
      top.Pairwise (fun a b => jerseyKey a ≤ jerseyKey b) ∧
      rest.Pairwise (fun a b => minutesKey b ≤ minutesKey a) ∧
      ∀ a ∈ top, ∀ b ∈ rest, mpgKey b ≤ mpgKey a := by
  have hsortperm := List.mergeSort_perm doc.players
    (fun a b => decide (mpgKey b ≤ mpgKey a))
  have hsp := pairwise_mergeSort_desc mpgKey doc.players
  set sorted := doc.players.mergeSort (fun a b => decide (mpgKey b ≤ mpgKey a))
    with hsorted
  have hsplit : sorted.take 9 ++ sorted.drop 9 = sorted :=
    List.take_append_drop 9 sorted
  have p1 : (List.mergeSort (sorted.take 9)
      (fun a b => decide (jerseyKey a ≤ jerseyKey b))).Perm (sorted.take 9) :=
    List.mergeSort_perm _ _
  have p2 : (List.mergeSort (sorted.drop 9)
      (fun a b => decide (minutesKey b ≤ minutesKey a))).Perm (sorted.drop 9) :=
    List.mergeSort_perm _ _
  refine ⟨_, _, rfl, ?_, ?_, pairwise_mergeSort_asc jerseyKey _,
    pairwise_mergeSort_desc minutesKey _, ?_⟩
  · have hq : (sorted.take 9 ++ sorted.drop 9).Perm doc.players := by
      rw [hsplit]; exact hsortperm
    exact (p1.append p2).trans hq
  · rw [p1.length_eq, List.length_take, hsortperm.length_eq]
  · intro a ha b hb
    have hp : sorted.Pairwise (fun a b => mpgKey b ≤ mpgKey a) := hsp
    rw [← hsplit] at hp
    have hsep := (List.pairwise_append.mp hp).2.2
    exact hsep a (p1.mem_iff.mp ha) b (p2.mem_iff.mp hb)


/-- No single-cell row appears among the fixed header rows of
`GET_TEAM_META` (they all have two cells). -/
theorem single_not_mem_teamMetaHeaderRows (t : String)
    (fmt : String → Option String) (d : TeamMetaDoc) (md : MetaCounts) :
    [Cell.s t] ∉ teamMetaHeaderRows fmt d md := by
  simp [teamMetaHeaderRows]

/-- No single-cell row appears in the mascot block. -/
theorem single_not_mem_mascotRows (t : String) (d : TeamMetaDoc) :
    [Cell.s t] ∉ mascotRows d := by
  unfold mascotRows
  split <;> simp

/-- The only single-cell rows of the total-record block are `""` and
`"=== RECORD ==="`. -/
theorem single_not_mem_totalRecordRows (t : String) (h0 : t ≠ "")
    (h1 : t ≠ "=== RECORD ===") (r : Option RecordWLG) :
    [Cell.s t] ∉ totalRecordRows r := by
  cases r <;> simp [totalRecordRows, h0, h1]

/-- The only single-cell rows of the conference-record block are `""`
and `"=== CONFERENCE RECORD ==="`. -/
theorem single_not_mem_conferenceRecordRows (t : String) (h0 : t ≠ "")
    (h1 : t ≠ "=== CONFERENCE RECORD ===") (r : Option RecordWLG) :
    [Cell.s t] ∉ conferenceRecordRows r := by
  cases r <;> simp [conferenceRecordRows, h0, h1]

/-- The only single-cell rows of the NET-rating block are `""` and its
section header. -/
theorem single_not_mem_netRatingRows (t : String) (h0 : t ≠ "")
    (h1 : t ≠ "=== NET RATING ===") (nr : Option NetRating) :
    [Cell.s t] ∉ netRatingRows nr := by
  cases nr with
  | none => simp [netRatingRows]
  | some n =>
    simp only [netRatingRows]
    split <;> split <;> simp [h0, h1]

/-- The only single-cell rows of the averages sub-block are `""` and
the averages header. -/
theorem single_not_mem_coachAveragesRows (t : String) (h0 : t ≠ "")
    (h2 : t ≠ "=== AVERAGES (Last 6 Seasons) ===") (c : CoachHistory) :
    [Cell.s t] ∉ coachAveragesRows c := by
  unfold coachAveragesRows
  rcases c with ⟨seasons, avgO, avgC, source, url⟩
  cases avgO <;> cases avgC <;> simp [h0, h2]

/-- The only single-cell row of the footer sub-block is `""`. -/
theorem single_not_mem_coachFooterRows (t : String) (h0 : t ≠ "")
    (c : CoachHistory) : [Cell.s t] ∉ coachFooterRows c := by
  unfold coachFooterRows
  split <;> split <;> simp [h0]

/-- The only single-cell rows of the coach-history block are `""`, its
section header, and the averages header. -/
theorem single_not_mem_coachHistoryRows (t : String) (h0 : t ≠ "")
    (h1 : t ≠ "=== COACH HISTORY (Last 6 Complete Seasons) ===")
    (h2 : t ≠ "=== AVERAGES (Last 6 Seasons) ===") (ch : Option CoachHistory) :
    [Cell.s t] ∉ coachHistoryRows ch := by
  cases ch with
  | none => simp [coachHistoryRows]
  | some c =>
    cases hs : c.seasons with
    | none => simp [coachHistoryRows, hs]
    | some ss =>
      by_cases hemp : ss.isEmpty
      · simp [coachHistoryRows, hs, hemp]
      · have hmap : [Cell.s t] ∉ ss.map coachSeasonRow := by
          simp [coachSeasonRow]
        have havg := single_not_mem_coachAveragesRows t h0 h2 c
        have hfoot := single_not_mem_coachFooterRows t h0 c
        simp [coachHistoryRows, hs, hemp, h0, h1, hmap, havg, hfoot]

/-- The NET-rating section header row appears in the NET-rating block
exactly when the `netRating` key is present. -/
theorem single_mem_netRatingRows_iff (nr : Option NetRating) :
    [Cell.s "=== NET RATING ==="] ∈ netRatingRows nr ↔ nr.isSome := by
  cases nr with
  | none => simp [netRatingRows]
  | some n => simp [netRatingRows]

/-- The coach-history section header row appears in the coach-history
block exactly when `coachHistory.seasons` is present and non-empty. -/
theorem single_mem_coachHistoryRows_iff (ch : Option CoachHistory) :
    [Cell.s "=== COACH HISTORY (Last 6 Complete Seasons) ==="] ∈ coachHistoryRows ch ↔
      ∃ c ss, ch = some c ∧ c.seasons = some ss ∧ ss ≠ [] := by
  cases ch with
  | none => simp [coachHistoryRows]
  | some c =>
    cases hs : c.seasons with
    | none => simp [coachHistoryRows, hs]
    | some ss =>
      by_cases hemp : ss.isEmpty
      · have : ss = [] := List.isEmpty_iff.mp hemp
        subst this
        simp [coachHistoryRows, hs]
      · have hne : ss ≠ [] := fun h => hemp (by simp [h])
        simp only [coachHistoryRows, hs, hemp, Bool.false_eq_true, if_false]
        simp [hs, hne]


/-- C5: in the `unnamed/part_001` `GET_TEAM_META`, the returned table
contains the `=== NET RATING ===` section exactly when the document's
`netRating` key is present, and the
`=== COACH HISTORY (Last 6 Complete Seasons) ===` section exactly when
`coachHistory.seasons` is present and non-empty — absent enrichment
keys produce no rows, so presence in the output is the success signal. -/
theorem GET_TEAM_META_enrichment_sections_iff
    (fmt : String → Option String) (d : TeamMetaDoc) (md : MetaCounts)
    (hmd : d.metadata = some md) :
    ([Cell.s "=== NET RATING ==="] ∈ GET_TEAM_META fmt (.ok d) ↔
       d.netRating.isSome) ∧
    ([Cell.s "=== COACH HISTORY (Last 6 Complete Seasons) ==="] ∈
        GET_TEAM_META fmt (.ok d) ↔
       ∃ c ss, d.coachHistory = some c ∧ c.seasons = some ss ∧ ss ≠ []) := by
  have htab : GET_TEAM_META fmt (.ok d) = teamMetaTable fmt d md := by
    simp only [GET_TEAM_META, GET_TEAM_META_body, Bind.bind, Except.bind, hmd,
      jsGetField]
    rfl
  rw [htab]
  constructor
  · rw [teamMetaTable]
    simp only [List.mem_append]
    constructor
    · intro h
      rcases h with ((((h | h) | h) | h) | h) | h
      · exact absurd h (single_not_mem_teamMetaHeaderRows _ fmt d md)
      · exact absurd h (single_not_mem_mascotRows _ d)
      · exact absurd h (single_not_mem_totalRecordRows _ (by decide) (by decide) _)
      · exact absurd h (single_not_mem_conferenceRecordRows _ (by decide) (by decide) _)
      · exact (single_mem_netRatingRows_iff d.netRating).mp h
      · exact absurd h
          (single_not_mem_coachHistoryRows _ (by decide) (by decide) (by decide) _)
    · intro h
      exact Or.inl (Or.inr ((single_mem_netRatingRows_iff d.netRating).mpr h))
  · rw [teamMetaTable]
    simp only [List.mem_append]
    constructor
    · intro h
      rcases h with ((((h | h) | h) | h) | h) | h
      · exact absurd h (single_not_mem_teamMetaHeaderRows _ fmt d md)
      · exact absurd h (single_not_mem_mascotRows _ d)
      · exact absurd h (single_not_mem_totalRecordRows _ (by decide) (by decide) _)
      · exact absurd h (single_not_mem_conferenceRecordRows _ (by decide) (by decide) _)
      · exact absurd h (single_not_mem_netRatingRows _ (by decide) (by decide) _)
      · exact (single_mem_coachHistoryRows_iff d.coachHistory).mp h
    · intro h
      exact Or.inr ((single_mem_coachHistoryRows_iff d.coachHistory).mpr h)

/-- Witness for C5: on a document carrying both enrichment blocks both
iffs hold, instantiated concretely. -/
theorem GET_TEAM_META_enrichment_sections_iff_witness :
    ([Cell.s "=== NET RATING ==="] ∈ GET_TEAM_META (fun _ => none) (.ok sampleMetaDoc) ↔
       sampleMetaDoc.netRating.isSome) ∧
    ([Cell.s "=== COACH HISTORY (Last 6 Complete Seasons) ==="] ∈
        GET_TEAM_META (fun _ => none) (.ok sampleMetaDoc) ↔
       ∃ c ss, sampleMetaDoc.coachHistory = some c ∧ c.seasons = some ss ∧ ss ≠ []) :=
  GET_TEAM_META_enrichment_sections_iff (fun _ => none) sampleMetaDoc {} rfl


/-- C4: every embedded `GET_*` spreadsheet function returns normally on
every input — each one runs its whole body inside `try`/`catch`, so an
unparseable response (a fetch/parse exception) or a missing required
field (a `TypeError` from dereferencing `undefined`) never propagates:
the function returns a table or string beginning with `"Error: "`, and
whenever the body evaluates without an exception the wrapper returns its
table unchanged. -/
theorem GET_functions_catch_all_errors :
    (∀ (fmt : String → Option String) (e : JsError),
       GET_TEAM_META fmt (.error e) = [[Cell.s ("Error: " ++ e.message)]]) ∧
    (∀ (fmt : String → Option String) (d : TeamMetaDoc), d.metadata = none →
       GET_TEAM_META fmt (.ok d) =
         [[Cell.s "Error: Cannot read properties of undefined (reading 'totalPlayers')"]]) ∧
    (∀ (fmt : String → Option String) (r : Except JsError TeamMetaDoc),
       (∃ t, GET_TEAM_META_body fmt r = .ok t ∧ GET_TEAM_META fmt r = t) ∨
       (∃ e, GET_TEAM_META_body fmt r = .error e ∧
          GET_TEAM_META fmt r = [[Cell.s ("Error: " ++ e.message)]])) ∧
    (∀ e : JsError, GET_TEAM_SEASON_STATS (.error e) =
       [[Cell.s ("Error: " ++ e.message)]]) ∧
    (∀ d : StatsDoc, d.teamSeasonStats = none →
       GET_TEAM_SEASON_STATS (.ok d) =
         [[Cell.s "Error: Cannot read properties of undefined (reading 'season')"]]) ∧
    (∀ (e : JsError) (name : String),
       GET_PLAYER_PREVIOUS_SEASON_SUMMARY (.error e) name = "Error: " ++ e.message) ∧
    (∀ (e : JsError) (name : String) (n : ℕ),
       GET_PLAYER_LAST_N_GAMES (.error e) name n =
         [[Cell.s ("Error: " ++ e.message)]]) ∧
    (∀ e : JsError, GET_PLAYERS_FULL (.error e) =
       [[Cell.s ("Error: " ++ e.message)],
        [Cell.s ("Line: " ++ renderLineNumber e.lineNumber)]]) := by
  refine ⟨?_, ?_, ?_, ?_, ?_, ?_, ?_, ?_⟩
  · intro fmt e; rfl
  · intro fmt d hmd
    simp only [GET_TEAM_META, GET_TEAM_META_body, Bind.bind, Except.bind, hmd,
      jsGetField]
    rfl
  · intro fmt r
    cases hb : GET_TEAM_META_body fmt r with
    | ok t => exact Or.inl ⟨t, rfl, by simp only [GET_TEAM_META, hb]⟩
    | error e => exact Or.inr ⟨e, rfl, by simp only [GET_TEAM_META, hb]⟩
  · intro e; rfl
  · intro d hts
    simp only [GET_TEAM_SEASON_STATS, GET_TEAM_SEASON_STATS_body, Bind.bind,
      Except.bind, hts, jsGetField]
    rfl
  · intro e name; rfl
  · intro e name n; rfl
  · intro e; rfl

/-- Witness for C4: a parse failure with message `boom` and a document
missing its `metadata` key both produce `Error: `-prefixed tables. -/
theorem GET_functions_catch_all_errors_witness :
    GET_TEAM_META (fun _ => none) (.error { message := "boom" }) =
      [[Cell.s "Error: boom"]] ∧
    GET_TEAM_META (fun _ => none) (.ok { team := some "Oregon" }) =
      [[Cell.s "Error: Cannot read properties of undefined (reading 'totalPlayers')"]] ∧
    GET_TEAM_SEASON_STATS (.ok {}) =
      [[Cell.s "Error: Cannot read properties of undefined (reading 'season')"]] :=
  ⟨GET_functions_catch_all_errors.1 (fun _ => none) { message := "boom" },
   GET_functions_catch_all_errors.2.1 (fun _ => none) { team := some "Oregon" } rfl,
   GET_functions_catch_all_errors.2.2.2.2.1 {} rfl⟩

end CBBD
